import Mathlib

/-!
Verification of the pipeline-management core of pygfx's wgpu renderer
(`pygfx/renderers/wgpu/_pipeline.py` and `pygfx/renderers/wgpu/_shaderbase.py`).

The Python code is shallowly embedded: dict state becomes association
lists (Python dicts preserve insertion order), exceptions become
`Except`, GPU command encoding becomes an emitted list of `GpuCall`
values, and external collaborators (the shader object, the jinja
template engine, the wgpu device) become oracle parameters.
-/

namespace Pygfx

/-- Python exception kinds raised by the embedded code. -/
inductive PyErr where
  | typeError (msg : String)
  | valueError (msg : String)
  | assertionError
  | keyError
  | attributeError
  deriving DecidableEq, Repr

instance exceptDecEq {ε α : Type} [DecidableEq ε] [DecidableEq α] :
    DecidableEq (Except ε α) := fun a b =>
  match a, b with
  | .error e1, .error e2 =>
    if h : e1 = e2 then .isTrue (by rw [h]) else .isFalse (by simp [h])
  | .error _, .ok _ => .isFalse (by simp)
  | .ok _, .error _ => .isFalse (by simp)
  | .ok v1, .ok v2 =>
    if h : v1 = v2 then .isTrue (by rw [h]) else .isFalse (by simp [h])

/-- GPU-side effects: object creation and command encoding, recorded as a trace. -/
inductive GpuCall where
  | createShaderModule
  | createPipeline
  | createBindGroupLayout
  | createBindGroup
  | setPipeline (p : Nat)
  | setBindGroup (index : Nat) (group : Nat)
  | setVertexBuffer (slot : Nat) (buffer : Nat)
  | setIndexBuffer (buffer : Nat)
  | drawCmd (a b c d : Int)
  | drawIndexedCmd (a b c d e : Int)
  | dispatchWorkgroups (x y z : Int)
  deriving DecidableEq, Repr

/-! ### Python dict / list helpers

Python dicts preserve insertion order; we model them as association
lists whose update leaves the key position unchanged and whose fresh
insert appends at the end. -/

/-- `d[k]` lookup returning `none` when the key is missing. -/
def alGet {β : Type} (m : List (String × β)) (k : String) : Option β :=
  match m with
  | [] => none
  | (k1, v) :: rest => if k1 = k then some v else alGet rest k

/-- `d[k] = v`: update in place if present, else append (insertion order). -/
def alSet {β : Type} (m : List (String × β)) (k : String) (v : β) : List (String × β) :=
  match m with
  | [] => [(k, v)]
  | (k1, v1) :: rest => if k1 = k then (k1, v) :: rest else (k1, v1) :: alSet rest k v

/-- `d.setdefault(k, []).append(n)`. -/
def alAppendNat (m : List (String × List Nat)) (k : String) (n : Nat) :
    List (String × List Nat) :=
  match m with
  | [] => [(k, [n])]
  | (k1, v1) :: rest =>
    if k1 = k then (k1, v1 ++ [n]) :: rest else (k1, v1) :: alAppendNat rest k n

/-- Python `list.insert(i, a)` (index clamped to the length). -/
def pyListInsert {α : Type} (l : List α) (i : Nat) (a : α) : List α :=
  l.take i ++ a :: l.drop i

/-! ### Python string helpers -/

/-- Whitespace as recognized by Python's `str.strip` / `\s`. -/
def isSpaceCh (c : Char) : Bool :=
  c = ' ' || c = '\t' || c = '\n' || c = '\r' || c = '\x0b' || c = '\x0c'

/-- A `\w` word character (the sources are ASCII). -/
def isWordCh (c : Char) : Bool :=
  c.isAlphanum || c = '_'

/-- Whether `pat` occurs as a contiguous sublist of `s`. -/
def subListAt (pat : List Char) (s : List Char) : Bool :=
  match s with
  | [] => pat.isEmpty
  | _ :: rest => pat.isPrefixOf s || subListAt pat rest

/-- Python `pat in s` substring containment. -/
def strContains (s pat : String) : Bool :=
  subListAt pat.data s.data

/-- Python `s.strip()`. -/
def pyStrip (s : String) : String :=
  String.mk ((s.data.dropWhile isSpaceCh).reverse.dropWhile isSpaceCh |>.reverse)

/-- Python `s.lstrip()`. -/
def pyLStrip (s : String) : String :=
  String.mk (s.data.dropWhile isSpaceCh)

/-- The leading whitespace of a line: `line[:len(line)-len(line.lstrip())]`. -/
def indentOf (s : String) : String :=
  String.mk (s.data.takeWhile isSpaceCh)

/-- Python `s.startswith(p)`. -/
def pyStartsWith (s p : String) : Bool :=
  p.data.isPrefixOf s.data

/-- Python `s.endswith(p)`. -/
def pyEndsWith (s p : String) : Bool :=
  p.data.reverse.isPrefixOf s.data.reverse

/-- Python `s.replace(c1, c2)` for single characters. -/
def charReplace (c1 c2 : Char) (s : String) : String :=
  String.mk (s.data.map fun c => if c = c1 then c2 else c)

/-- Python `s.split(sep)[0]`: everything before the first occurrence of `sep`. -/
def takeBeforeSub (sep : List Char) (s : List Char) : List Char :=
  match s with
  | [] => []
  | c :: rest => if sep.isPrefixOf (c :: rest) then [] else c :: takeBeforeSub sep rest

/-! ## `_pipeline.py`: render-info validation (`_check_render_info`) -/

/-- `ComputePipelineContainer._check_render_info`: the `indices` value of the
`render_info` dict must be a tuple/list of exactly 3 ints (the int-ness of the
elements is the element type here).  Returns the stored indices. -/
def compute_check_render_info (indices : List Int) : Except PyErr (List Int) :=
  if indices.length = 3 then .ok indices else .error .assertionError

/-- `RenderPipelineContainer._check_render_info`: `indices` must have length
2, 4 or 5; a length-2 tuple `(a, b)` is replaced by `(a, b, 0, 0)`;
`render_mask` must be one of 1, 2, 3.  Returns the (possibly normalized)
indices stored back into `render_info`. -/
def render_check_render_info (indices : List Int) (render_mask : Int) :
    Except PyErr (List Int) :=
  if indices.length = 2 ∨ indices.length = 4 ∨ indices.length = 5 then
    let indices2 := if indices.length = 2 then indices ++ [0, 0] else indices
    if render_mask = 1 ∨ render_mask = 2 ∨ render_mask = 3 then
      .ok indices2
    else
      .error .assertionError
  else
    .error .assertionError

/-! ## `_pipeline.py`: texture sample-type derivation (`Binding.get_bind_group_descriptors`) -/

/-- The wgpu `TextureSampleType` values reachable from the `texture/auto` branch. -/
inductive SampleType where
  | float
  | uint
  | sint
  | depth
  deriving DecidableEq, Repr

/-- The `sample_type == "auto"` branch of `Binding.get_bind_group_descriptors`:
derive the sample type from the (already ALTTEXFORMAT-normalized) texel format
string, raising `ValueError` when no rule matches. -/
def autoSampleType (fmt : String) : Except PyErr SampleType :=
  if strContains fmt "float" || strContains fmt "norm" then
    .ok .float
  else if strContains fmt "uint" then
    .ok .uint
  else if strContains fmt "sint" then
    .ok .sint
  else if strContains fmt "depth" then
    .ok .depth
  else
    .error (.valueError "Could not determine texture sample type.")

/-! ## `_pipeline.py`: the `PipelineContainer.update` protocol

`PipelineContainer.__init__` assigns the attributes modelled below plus
`shader`; the shader-supplied layers (`resources`, `pipeline_info`,
`render_info`, the shader hash, bind-group data and the flat resource
list) are opaque to the update protocol, so their values are abstract
`Nat`s / lists. `broken` is `False` initially and is assigned
`1`, `0`, `2` or `False` by `update`; only its truthiness and the
1-vs-2 distinction are ever observed, so it is a `Nat` with `0` for
both falsy values. -/

/-- Every attribute assigned in `PipelineContainer.__init__` (used to model
Python attribute lookup in `dispatch`, see `compute_dispatch`). -/
def pipelineContainerInitAttrs : List String :=
  ["shader", "shader_hash", "resources", "pipeline_info", "render_info",
   "wgpu_shaders", "wgpu_pipelines", "bind_group_layout_descriptors",
   "wgpu_bind_group_layouts", "wgpu_bind_groups", "flat_resources", "broken"]

/-- The container state other than the `broken` flag.  Dicts keyed by the
environment hash are association lists. -/
structure PCData where
  shader_hash : Nat
  resources : Option Nat
  pipeline_info : Option Nat
  render_info : Option Nat
  bind_group_layout_descriptors : List Nat
  wgpu_bind_group_layouts : List Nat
  wgpu_bind_groups : List Nat
  flat_resources : List Nat
  wgpu_shaders : List (String × Nat)
  wgpu_pipelines : List (String × Nat)
  deriving DecidableEq, Repr

/-- A pipeline container: the `broken` flag plus the data layers. -/
structure PCState where
  broken : Nat
  data : PCData
  deriving DecidableEq, Repr

/-- Python truthiness of the `broken` flag. -/
def pyTruthy (n : Nat) : Bool := n != 0

/-- Outcome of `update_shader_data` (an external-heavy phase: it calls the
shader's `get_resources` / `get_pipeline_info` / `get_render_info` and the
device's bind-group creation).  It may mutate any data layer, emit GPU calls,
and raise; it never touches `broken`. -/
structure Phase1Out where
  data : PCData
  calls : List GpuCall
  err : Option PyErr

/-- An external compile step (`_compile_shaders` / `_compose_pipelines`):
a result or an exception, together with the GPU calls it issued. -/
def CompileOut := Except PyErr Nat × List GpuCall

/-- The second half of `update_wgpu_data`: compose the pipelines for
`envHash` if absent, from the stored shader modules `m`. -/
def composePipelinesStep (d : PCData) (envHash : String) (m : Nat)
    (cpl : Nat → CompileOut) (acc : List GpuCall) :
    PCData × List GpuCall × Option PyErr :=
  match alGet d.wgpu_pipelines envHash with
  | some _ => (d, acc, none)
  | none =>
    match cpl m with
    | (.error e, calls) => (d, acc ++ calls, some e)
    | (.ok p, calls) =>
      ({ d with wgpu_pipelines := alSet d.wgpu_pipelines envHash p },
       acc ++ calls, none)

/-- `PipelineContainer.update_wgpu_data`: lazily compile the shader modules
and then the pipelines for `envHash`, storing them in the two dicts.
`csh` stands for `self._compile_shaders(...)`, `cpl m` for
`self._compose_pipelines(...)` applied to the stored modules `m`. -/
def update_wgpu_data (d : PCData) (envHash : String)
    (csh : CompileOut) (cpl : Nat → CompileOut) :
    PCData × List GpuCall × Option PyErr :=
  match alGet d.wgpu_shaders envHash with
  | some m =>
    composePipelinesStep d envHash m cpl []
  | none =>
    match csh with
    | (.error e, calls) => (d, calls, some e)
    | (.ok m, calls) =>
      let d2 := { d with wgpu_shaders := alSet d.wgpu_shaders envHash m }
      composePipelinesStep d2 envHash m cpl calls

/-- The GPU-object phase of `update` with its `try`/`except`: a failure sets
`broken = 2` and re-raises, success sets `broken = False`. -/
def updateGpuPhase (st : PCState) (envHash : String)
    (csh : CompileOut) (cpl : Nat → CompileOut) (acc : List GpuCall) :
    PCState × List GpuCall × Option PyErr :=
  match update_wgpu_data st.data envHash csh cpl with
  | (d, calls, some e) => (⟨2, d⟩, acc ++ calls, some e)
  | (d, calls, none) => (⟨0, d⟩, acc ++ calls, none)

/-- `PipelineContainer.update`.  `changed` is whether the `changed` aspect set
is non-empty; `p1` is the `update_shader_data` phase (external oracle);
`csh`/`cpl` are the compile steps used by `update_wgpu_data`.  Returns the
final state, the GPU calls issued, and the re-raised exception if any. -/
def PipelineContainer.update (st : PCState) (changed : Bool) (envHash : String)
    (p1 : PCData → Phase1Out)
    (csh : CompileOut) (cpl : Nat → CompileOut) :
    PCState × List GpuCall × Option PyErr :=
  if changed then
    let r := p1 st.data
    match r.err with
    | some e => (⟨1, r.data⟩, r.calls, some e)
    | none => updateGpuPhase ⟨0, r.data⟩ envHash csh cpl r.calls
  else
    if pyTruthy st.broken then (st, [], none)
    else updateGpuPhase st envHash csh cpl []

/-! ## `_pipeline.py`: `ComputePipelineContainer.dispatch` -/

/-- The state of a compute pipeline container as seen by `dispatch`:
`render_info["indices"]` (the 3 dispatch dimensions), the bind groups, the
pipelines dict, and `broken`. -/
structure ComputeState where
  broken : Nat
  render_info_indices : List Int
  wgpu_bind_groups : List Nat
  wgpu_pipelines : List (String × Nat)
  deriving DecidableEq, Repr

/-- Python attribute lookup on a compute container: only the attributes
assigned in `__init__` (or re-assigned in `update`, which assigns the same
names) exist; everything else raises `AttributeError`. -/
def computeAttrExists (name : String) : Bool :=
  name ∈ pipelineContainerInitAttrs

/-- The commands `dispatch` would encode once it has a pipeline object. -/
def computeDispatchCalls (pipeline : Nat) (c : ComputeState) :
    Except PyErr (List GpuCall) :=
  let binds := (c.wgpu_bind_groups.enum.map fun ig => GpuCall.setBindGroup ig.1 ig.2)
  match c.render_info_indices with
  | [x, y, z] => .ok (GpuCall.setPipeline pipeline :: binds
      ++ [GpuCall.dispatchWorkgroups x y z])
  | _ => .error (.typeError "dispatch_workgroups takes 3 arguments")

/-- `ComputePipelineContainer.dispatch`: no-op when broken; otherwise the
first statement is `pipeline = self.wgpu_pipeline` — an attribute that is
never assigned anywhere (the compiled pipelines live in `wgpu_pipelines`),
so the lookup raises `AttributeError` before any pass command is encoded. -/
def compute_dispatch (c : ComputeState) : Except PyErr (List GpuCall) :=
  if pyTruthy c.broken then .ok []
  else if computeAttrExists "wgpu_pipeline" then
    -- The branch the source intends: bind the single pipeline, the bind
    -- groups, and dispatch with the 3 stored dimensions.
    match alGet c.wgpu_pipelines "" with
    | some p => computeDispatchCalls p c
    | none => .error .keyError
  else
    .error .attributeError

/-! ## `_pipeline.py`: `RenderPipelineContainer.draw` -/

/-- The state of a render pipeline container as seen by `draw`. -/
structure RenderState where
  broken : Nat
  render_mask : Nat
  indices : List Int
  index_buffer : Option Nat
  vertex_buffers : List (Nat × Nat)
  wgpu_bind_groups : List Nat
  wgpu_pipelines : List (String × List (Nat × Nat))
  deriving DecidableEq, Repr

/-- Lookup in a dict keyed by pass index. -/
def alGetN {β : Type} (m : List (Nat × β)) (k : Nat) : Option β :=
  match m with
  | [] => none
  | (k1, v) :: rest => if k1 = k then some v else alGetN rest k

/-- `RenderPipelineContainer.draw`: no-op when broken or when the render mask
does not intersect `render_info["render_mask"]`; otherwise bind the pipeline
for (environment, pass), the vertex buffers, the bind groups, and issue one
indexed draw (with a zero base-vertex spliced in before the last element when
the stored tuple has 4 elements) or one non-indexed draw. -/
def render_draw (c : RenderState) (envHash : String) (passIndex : Nat)
    (renderMask : Nat) : Except PyErr (List GpuCall) :=
  if pyTruthy c.broken then .ok []
  else if renderMask &&& c.render_mask = 0 then .ok []
  else
    match alGet c.wgpu_pipelines envHash with
    | none => .error .keyError
    | some passes =>
      match alGetN passes passIndex with
      | none => .error .keyError
      | some pipeline =>
        let setup := GpuCall.setPipeline pipeline
          :: (c.vertex_buffers.map fun sb => GpuCall.setVertexBuffer sb.1 sb.2)
          ++ (c.wgpu_bind_groups.enum.map fun ig => GpuCall.setBindGroup ig.1 ig.2)
        match c.index_buffer with
        | some ib =>
          let inds := if c.indices.length = 4
            then pyListInsert c.indices (c.indices.length - 1) 0
            else c.indices
          match inds with
          | [a, b, c0, d, e] =>
            .ok (setup ++ [GpuCall.setIndexBuffer ib, GpuCall.drawIndexedCmd a b c0 d e])
          | _ => .error (.typeError "draw_indexed takes 5 arguments")
        | none =>
          match c.indices with
          | [a, b, c0, d] => .ok (setup ++ [GpuCall.drawCmd a b c0 d])
          | _ => .error (.typeError "draw takes 4 arguments")

/-! ## `_shaderbase.py`: `BaseShader.hash` and `code_definitions`

`hash()` is `sha1(repr(self.kwargs) + self.code_definitions()).hexdigest()`.
Equal byte strings give equal SHA-1 digests, and the spec's own idealization
("collision-free in practice") identifies digest equality with input
equality, so the digest is modelled by the exact byte string fed to it. -/

/-- The state of a `BaseShader` relevant to hashing: the template-variable
dict `kwargs`, and the `_typedefs` / `_binding_codes` fragment dicts, all
insertion-ordered. Template-variable values are modelled as strings. -/
structure ShaderState where
  kwargs : List (String × String)
  typedefs : List (String × String)
  binding_codes : List (String × String)
  deriving DecidableEq, Repr

/-- A single-quote character as a string (used by Python `repr`). -/
def sq : String := String.mk [Char.ofNat 39]

/-- Python `repr` of an insertion-ordered str→str dict. -/
def reprStrDict (kw : List (String × String)) : String :=
  "\x7b" ++ String.intercalate ", "
    (kw.map fun p => sq ++ p.1 ++ sq ++ ": " ++ sq ++ p.2 ++ sq) ++ "\x7d"

/-- `BaseShader.code_definitions`: newline-join of the typedef fragment
values, a newline, then newline-join of the binding-code fragment values. -/
def code_definitions (s : ShaderState) : String :=
  String.intercalate "\n" (s.typedefs.map (·.2)) ++ "\n"
    ++ String.intercalate "\n" (s.binding_codes.map (·.2))

/-- The byte string `BaseShader.hash` feeds to SHA-1:
`repr(self.kwargs)` followed by `self.code_definitions()`. -/
def hashMessage (s : ShaderState) : String :=
  reprStrDict s.kwargs ++ code_definitions s

/-! ## `_shaderbase.py`: `BaseShader.generate_wgsl`

`generate_wgsl` saves `self.kwargs`, replaces it by a copy updated with the
extra kwargs, runs `get_code()` + the jinja render (external: modelled as an
oracle that may mutate the working dict and may raise), and restores the
saved dict in a `finally` block. -/

/-- Python `dict.update`: existing keys are updated in place, new keys are
appended in the order of `extra`. -/
def dictUpdate (base extra : List (String × String)) : List (String × String) :=
  extra.foldl (fun acc kv => alSet acc kv.1 kv.2) base

/-- `BaseShader.generate_wgsl`.  `body` is the oracle for
`get_code()` + `jinja render` + varying/depth resolution: it receives the
merged working dict and returns the dict as it left it (it may have mutated
it) together with the produced source or a raised error.  The `finally`
block restores the saved kwargs regardless of the outcome. -/
def generate_wgsl (s : ShaderState) (extra : List (String × String))
    (body : List (String × String) → List (String × String) × Except PyErr String) :
    ShaderState × Except PyErr String :=
  let old := s.kwargs
  let merged := dictUpdate old extra
  let r := body merged
  ({ s with kwargs := old }, r.2)

/-! ## `_shaderbase.py`: `resolve_varyings`

The source is processed as a list of lines: leading and trailing blank lines
are removed and an empty line is appended, then four passes run in order —
the setter scan, the getter scan, the used⊆assigned check, the comment-out
of unused assignments, and the struct synthesis/insertion. -/

/-- `varying_types`: the base float types plus their `i`/`u` variants
(`str.replace("f", ...)` applied to every character). -/
def varyingTypesBase : List String := ["f32", "vec2<f32>", "vec3<f32>", "vec4<f32>"]

/-- All accepted explicit varying types. -/
def varyingTypes : List String :=
  varyingTypesBase ++ varyingTypesBase.map (charReplace 'f' 'i')
    ++ varyingTypesBase.map (charReplace 'f' 'u')

/-- `builtin_varyings`. -/
def builtinVaryings : List (String × String) := [("position", "vec4<f32>")]

/-- The regex `\A\s*?varyings\.(\w+)(\.\w+)?\s*?\=` applied with `match`:
skip leading whitespace, expect `varyings.`, a nonempty word-character name,
optionally `.attr`, optional whitespace and `=`.  Returns the name, the
attribute (with its dot) if present, and the characters after the `=`. -/
def matchSetter (line : String) : Option (String × Option String × List Char) :=
  let cs := line.data.dropWhile isSpaceCh
  if ("varyings.".data).isPrefixOf cs then
    let cs2 := cs.drop 9
    let name := cs2.takeWhile isWordCh
    if name.isEmpty then none
    else
      let cs3 := cs2.dropWhile isWordCh
      let tryEq : List Char → Option (List Char) := fun l =>
        match l.dropWhile isSpaceCh with
        | '=' :: rest => some rest
        | _ => none
      let withAttr : Option (String × Option String × List Char) :=
        match cs3 with
        | '.' :: cs4 =>
          let attr := cs4.takeWhile isWordCh
          if attr.isEmpty then none
          else
            match tryEq (cs4.dropWhile isWordCh) with
            | some rest => some (String.mk name, some (String.mk ('.' :: attr)), rest)
            | none => none
        | _ => none
      match withAttr with
      | some r => some r
      | none =>
        match tryEq cs3 with
        | some rest => some (String.mk name, none, rest)
        | none => none
  else none

/-- `line[match.end():].split("(")[0].strip().replace(" ", "")`. -/
def extractType (rest : List Char) : String :=
  let t := pyStrip (String.mk (takeBeforeSub ['('] rest))
  String.mk (t.data.filter fun c => c ≠ ' ')

/-- The type recognized for a setter line: the extracted cast target if it
is one of `varying_types`, else `""` (lines 81–83 of `_shaderbase.py`). -/
def normVaryingType (t : String) : String :=
  if t ∈ varyingTypes then t else ""

/-- Accumulator of the setter scan: assignment line numbers, inferred types,
and the used-varyings dict (pre-seeded for builtins). -/
structure SetterAcc where
  assigned : List (String × List Nat)
  types : List (String × String)
  used : List (String × List Nat)
  deriving DecidableEq, Repr

/-- The builtin handling of the setter scan (lines 77–79): a builtin name is
marked used and its type pre-recorded before the triage. -/
def seedBuiltin (acc : SetterAcc) (name : String) : SetterAcc :=
  match alGet builtinVaryings name with
  | some bty =>
    { acc with used := alSet acc.used name [], types := alSet acc.types name bty }
  | none => acc

/-- One line of the setter scan (lines 70–98 of `_shaderbase.py`). -/
def setterStep (acc : SetterAcc) (linenr : Nat) (line : String) :
    Except PyErr SetterAcc :=
  match matchSetter line with
  | none => .ok acc
  | some (name, attr, rest) =>
    let acc2 := seedBuiltin acc name
    let ty := normVaryingType (extractType rest)
    if attr.isSome then
      .ok { acc2 with assigned := alAppendNat acc2.assigned name linenr }
    else if ty = "" then
      .error (.typeError ("Varying assignment needs an explicit cast: " ++ name))
    else
      match alGet acc2.types name with
      | some t0 =>
        if ty ≠ t0 then
          .error (.typeError ("Varying assignment does not match expected type: " ++ name))
        else
          .ok { acc2 with types := alSet acc2.types name ty,
                          assigned := alAppendNat acc2.assigned name linenr }
      | none =>
        .ok { acc2 with types := alSet acc2.types name ty,
                        assigned := alAppendNat acc2.assigned name linenr }

/-- The setter scan over all lines. -/
def setterAux : List String → Nat → SetterAcc → Except PyErr SetterAcc
  | [], _, acc => .ok acc
  | l :: ls, n, acc =>
    match setterStep acc n l with
    | .error e => .error e
    | .ok acc2 => setterAux ls (n + 1) acc2

/-- The full setter scan from the initial empty accumulator. -/
def setterPass (lines : List String) : Except PyErr SetterAcc :=
  setterAux lines 0 ⟨[], [], []⟩

/-- `line.split("//")[0]`. -/
def stripComment (s : String) : String :=
  String.mk (takeBeforeSub ['/', '/'] s.data)

/-- The character class `[\s,\(\[]` preceding a getter occurrence. -/
def getterPre (c : Char) : Bool :=
  isSpaceCh c || c = ',' || c = '(' || c = '['

/-- All names matched by `finditer` of `[\s,\(\[]varyings\.(\w+)` in order
(the scan resumes after each match).  Fueled: each step strictly shortens
the character list, so `length + 1` fuel is exact. -/
def getterNamesAux : Nat → List Char → List String
  | 0, _ => []
  | _, [] => []
  | fuel + 1, c :: rest =>
    if getterPre c && ("varyings.".data).isPrefixOf rest then
      let nm := (rest.drop 9).takeWhile isWordCh
      if nm.isEmpty then getterNamesAux fuel rest
      else String.mk nm :: getterNamesAux fuel ((rest.drop 9).dropWhile isWordCh)
    else getterNamesAux fuel rest

/-- Getter occurrences of a (comment-stripped) line, with the `" " + line`
prepend of the source. -/
def getterNames (lc : String) : List String :=
  getterNamesAux (lc.data.length + 2) (' ' :: lc.data)

/-- Process the getter matches of one line: a match on its own assignment
line is skipped, a read inside the vertex shader raises, any other read is
recorded in `used`. -/
def getterLineProcess (used : List (String × List Nat))
    (assigned : List (String × List Nat)) (inVertex : Bool) (linenr : Nat) :
    List String → Except PyErr (List (String × List Nat))
  | [] => .ok used
  | nm :: rest =>
    if linenr ∈ ((alGet assigned nm).getD []) then
      getterLineProcess used assigned inVertex linenr rest
    else if inVertex then
      .error (.typeError ("Varying is read in the vertex shader: " ++ nm))
    else
      getterLineProcess (alAppendNat used nm linenr) assigned inVertex linenr rest

/-- State threaded through the getter scan. -/
structure GetterSt where
  used : List (String × List Nat)
  structPos : Option Nat
  inVertex : Bool
  curFn : Nat
  deriving DecidableEq, Repr

/-- One line of the getter scan (lines 100–132 of `_shaderbase.py`):
function-entry detection on the stripped line, comment stripping, the
`Varyings` struct-position capture, then the per-match processing. -/
def getterStep (assigned : List (String × List Nat)) (st : GetterSt)
    (linenr : Nat) (line : String) : Except PyErr GetterSt :=
  let ls := pyStrip line
  let st := if pyStartsWith ls "fn " then
      { st with curFn := linenr, inVertex := pyStartsWith ls "fn vs_main" }
    else st
  let lc := stripComment ls
  let st := if strContains lc "Varyings" && st.structPos.isNone then
      { st with structPos := some st.curFn }
    else st
  match getterLineProcess st.used assigned st.inVertex linenr (getterNames lc) with
  | .error e => .error e
  | .ok u => .ok { st with used := u }

/-- The getter scan over all lines. -/
def getterAux (assigned : List (String × List Nat)) :
    List String → Nat → GetterSt → Except PyErr GetterSt
  | [], _, st => .ok st
  | l :: ls, n, st =>
    match getterStep assigned st n l with
    | .error e => .error e
    | .ok st2 => getterAux assigned ls (n + 1) st2

/-- The full getter scan; `used0` is the used-dict pre-seeded by the setter
scan (builtins). -/
def getterPass (lines : List String) (assigned used0 : List (String × List Nat)) :
    Except PyErr GetterSt :=
  getterAux assigned lines 0 ⟨used0, none, false, 0⟩

/-- Lines 134–138: every used varying must be assigned somewhere. -/
def checkAssigned : List (String × List Nat) → List (String × List Nat) →
    Except PyErr Unit
  | [], _ => .ok ()
  | (n, _) :: rest, assigned =>
    if (alGet assigned n).isSome then checkAssigned rest assigned
    else .error (.typeError ("Varying is read, but not assigned: " ++ n))

/-- The statement starts on which the multi-line comment-out loop bails. -/
def unexpectedStarts : List String := ["fn ", "struct ", "var ", "let ", "\x7d"]

/-- Python `s.startswith(tuple)`. -/
def startsWithAny (s : String) (ps : List String) : Bool :=
  ps.any (pyStartsWith s)

/-- The `while not line_s.endswith(";")` loop of the comment-out step:
advance through continuation lines, prefixing each with `indent + "// "`,
raising on an unexpected statement start or at the final (empty) line.
Fuel only bounds the iteration count; the loop always stops at the last
line, so `lines.length + 1` fuel is never exhausted on valid indices. -/
def contLoop (indent : String) :
    List String → String → Nat → Nat → Except PyErr (List String)
  | _, _, _, 0 => .error (.typeError "Varying assignment seems to be missing a semicolon")
  | lines, lineS, linenr, fuel + 1 =>
    if pyEndsWith lineS ";" then .ok lines
    else if startsWithAny (pyStrip (lines.getD (linenr + 1) "")) unexpectedStarts
        || linenr + 1 = lines.length - 1 then
      .error (.typeError "Varying assignment seems to be missing a semicolon")
    else
      contLoop indent
        (lines.set (linenr + 1)
          (indent ++ "// " ++ pyStrip (lines.getD (linenr + 1) "")))
        (pyStrip (lines.getD (linenr + 1) "")) (linenr + 1) fuel

/-- Comment out the assignment starting at `linenr`: prefix the line with
`indent + "// unused: "` and continue through its continuation lines. -/
def commentOne (lines : List String) (linenr : Nat) : Except PyErr (List String) :=
  let line := lines.getD linenr ""
  let indent := indentOf line
  let lines2 := lines.set linenr
    (indent ++ "// unused: " ++ String.mk (line.data.drop indent.data.length))
  contLoop indent lines2 (pyStrip line) linenr (lines.length + 1)

/-- Comment out each assignment line number of one varying in order. -/
def commentOutNrs : List Nat → List String → Except PyErr (List String)
  | [], lines => .ok lines
  | nr :: rest, lines =>
    match commentOne lines nr with
    | .error e => .error e
    | .ok l2 => commentOutNrs rest l2

/-- Lines 140–157: comment out the setters of varyings that are assigned but
never used, iterating the assigned dict in insertion order. -/
def commentOut : List (String × List Nat) → List (String × List Nat) →
    List String → Except PyErr (List String)
  | [], _, lines => .ok lines
  | (name, nrs) :: restAssigned, used, lines =>
    if (alGet used name).isSome then commentOut restAssigned used lines
    else
      match commentOutNrs nrs lines with
      | .error e => .error e
      | .ok l2 => commentOut restAssigned used l2

/-- `set()`-style deduplication keeping first occurrences. -/
def dedupAux : List String → List String → List String
  | [], _ => []
  | x :: xs, seen =>
    if x ∈ seen then dedupAux xs seen else x :: dedupAux xs (x :: seen)

/-- Deduplicate a list of names. -/
def dedupStrings (l : List String) : List String := dedupAux l []

/-- Insert into a sorted list of strings. -/
def insertSorted (x : String) : List String → List String
  | [] => [x]
  | y :: ys => if x ≤ y then x :: y :: ys else y :: insertSorted x ys

/-- Python `sorted()` on strings. -/
def sortStrings : List String → List String
  | [] => []
  | x :: xs => insertSorted x (sortStrings xs)

/-- A slot-numbered struct field line. -/
def locLine (slotnr : Nat) (name ty : String) : String :=
  "    @location(" ++ toString slotnr ++ ") " ++ name ++ " : " ++ ty ++ ","

/-- A builtin struct field line. -/
def builtinLine (name ty : String) : String :=
  "    @builtin(" ++ name ++ ") " ++ name ++ " : " ++ ty ++ ","

/-- The sorted non-builtin used names (the slot-numbered struct fields). -/
def structSlotNames (used : List (String × List Nat)) : List String :=
  sortStrings (dedupStrings
    ((used.map (·.1)).filter fun n => (alGet builtinVaryings n).isNone))

/-- The sorted used builtin names. -/
def structBuiltinNames (used : List (String × List Nat)) : List String :=
  sortStrings (dedupStrings
    ((used.map (·.1)).filter fun n => (alGet builtinVaryings n).isSome))

/-- The slot-numbered field lines; a missing type is a `KeyError`
(`types[name]` lookup). -/
def mkFieldLines (slots : List String) (types : List (String × String))
    (slotnr : Nat) : Except PyErr (List String) :=
  match slots with
  | [] => .ok []
  | n :: rest =>
    match alGet types n with
    | none => .error .keyError
    | some t =>
      match mkFieldLines rest types (slotnr + 1) with
      | .error e => .error e
      | .ok ls => .ok (locLine slotnr n t :: ls)

/-- The builtin field lines. -/
def mkBuiltinLines (bs : List String) (types : List (String × String)) :
    Except PyErr (List String) :=
  match bs with
  | [] => .ok []
  | n :: rest =>
    match alGet types n with
    | none => .error .keyError
    | some t =>
      match mkBuiltinLines rest types with
      | .error e => .error e
      | .ok ls => .ok (builtinLine n t :: ls)

/-- Lines 170–176: the synthesized `struct Varyings` lines. -/
def mkStructLines (used : List (String × List Nat))
    (types : List (String × String)) : Except PyErr (List String) :=
  match mkFieldLines (structSlotNames used) types 0 with
  | .error e => .error e
  | .ok fieldLs =>
    match mkBuiltinLines (structBuiltinNames used) types with
    | .error e => .error e
    | .ok bLs => .ok ("struct Varyings \x7b" :: fieldLs ++ bLs ++ ["\x7d;\n"])

/-- Lines 159–183: insert the synthesized struct before the first function
that mentions `Varyings` (moving above an immediately preceding attribute
line), as a single multi-line element; with no insertion position a
non-empty used set trips the source's `assert`. -/
def insertStruct (lines : List String) (structPos : Option Nat)
    (used : List (String × List Nat)) (types : List (String × String)) :
    Except PyErr (List String) :=
  match structPos with
  | none => if used.isEmpty then .ok lines else .error .assertionError
  | some p0 =>
    let p := if p0 > 0 && pyStartsWith (pyLStrip (lines.getD (p0 - 1) "")) "@"
      then p0 - 1 else p0
    match mkStructLines used types with
    | .error e => .error e
    | .ok structLs =>
      let indent := indentOf (lines.getD p "")
      let joined := String.intercalate "\n" (structLs.map (indent ++ ·))
      .ok (pyListInsert lines p joined)

/-- Strip leading and trailing blank lines. -/
def pyTrimBlankLines (lines : List String) : List String :=
  let l1 := lines.dropWhile fun s => pyStrip s = ""
  (l1.reverse.dropWhile fun s => pyStrip s = "").reverse

/-- Lines 52–57 (shared by both resolvers): split into lines, trim blank
lines at both ends, append an empty line. -/
def prepareLines (wgsl : String) : List String :=
  pyTrimBlankLines (wgsl.splitOn "\n") ++ [""]

/-- `resolve_varyings` on prepared lines: the five passes in source order. -/
def resolveVaryingsLines (lines : List String) : Except PyErr (List String) :=
  match setterPass lines with
  | .error e => .error e
  | .ok acc =>
    match getterPass lines acc.assigned acc.used with
    | .error e => .error e
    | .ok st =>
      match checkAssigned st.used acc.assigned with
      | .error e => .error e
      | .ok _ =>
        match commentOut acc.assigned st.used lines with
        | .error e => .error e
        | .ok lines2 => insertStruct lines2 st.structPos st.used acc.types

/-- `resolve_varyings`. -/
def resolve_varyings (wgsl : String) : Except PyErr String :=
  (resolveVaryingsLines (prepareLines wgsl)).map (String.intercalate "\n")

/-! ## `_shaderbase.py`: `resolve_depth_output` -/

/-- The regex `\A\s*?out\.depth\s*?\=` applied with `match`. -/
def depthSetterMatch (line : String) : Bool :=
  let cs := line.data.dropWhile isSpaceCh
  if ("out.depth".data).isPrefixOf cs then
    match (cs.drop 9).dropWhile isSpaceCh with
    | '=' :: _ => true
    | _ => false
  else false

/-- Lines 213–221: scan for the `FragmentOutput` struct opener and for
`out.depth` assignments; once depth is known to be set and a struct has been
seen the loop breaks, keeping the last struct position seen so far. -/
def depthScan : List String → Nat → Bool → Option Nat → Bool × Option Nat
  | [], _, depthSet, structPos => (depthSet, structPos)
  | l :: rest, idx, depthSet, structPos =>
    if pyStartsWith (pyLStrip l) "struct FragmentOutput \x7b" then
      depthScan rest (idx + 1) depthSet (some idx)
    else if depthSetterMatch l then
      if structPos.isSome then (true, structPos)
      else depthScan rest (idx + 1) true structPos
    else depthScan rest (idx + 1) depthSet structPos

/-- The spliced depth field. -/
def depthField : String := "    @builtin(frag_depth) depth : f32,"

/-- `resolve_depth_output` on prepared lines. -/
def resolveDepthLines (lines : List String) : Except PyErr (List String) :=
  match depthScan lines 0 false none with
  | (false, _) => .ok lines
  | (true, none) => .error (.typeError "FragmentOutput definition not found.")
  | (true, some p) =>
    let indent := indentOf (lines.getD p "")
    .ok (pyListInsert lines (p + 1) (indent ++ depthField))

/-- `resolve_depth_output`. -/
def resolve_depth_output (wgsl : String) : Except PyErr String :=
  (resolveDepthLines (prepareLines wgsl)).map (String.intercalate "\n")

/-! ## Concrete example data used by witnesses and counterexamples -/

/-- Two typedef fragments whose values concatenate like the single fragment
of `hashExB`. -/
def hashExA : ShaderState := ⟨[("a", "1"), ("b", "2")], [("s1", "A"), ("s2", "B")], []⟩

/-- One typedef fragment equal to the newline-join of `hashExA`'s two. -/
def hashExB : ShaderState := ⟨[("a", "1"), ("b", "2")], [("s1", "A\nB")], []⟩

/-- The same variable dict as `hashExB` in the other insertion order. -/
def hashExC : ShaderState := ⟨[("b", "2"), ("a", "1")], [("s1", "A\nB")], []⟩

/-- A fresh, never-updated container (no compiled shaders or pipelines). -/
def c2State : PCState := ⟨0, ⟨0, none, none, none, [], [], [], [], [], []⟩⟩

/-- A trivial shader-data phase oracle (it is not reached). -/
def c2P1 : PCData → Phase1Out := fun d => ⟨d, [], none⟩

/-- `_compile_shaders` succeeding with one `create_shader_module` call. -/
def c2Csh : CompileOut := ((Except.ok 7 : Except PyErr Nat), [GpuCall.createShaderModule])

/-- `_compose_pipelines` succeeding with one `create_render_pipeline` call. -/
def c2Cpl : Nat → CompileOut := fun _ => ((Except.ok 9 : Except PyErr Nat), [GpuCall.createPipeline])

/-- A vertex-stage source that assigns `varyings.bar` (multi-line) and
`varyings.position`, and reads only `position`. -/
def c7Lines : List String :=
  ["fn vs_main() -> Varyings \x7b", "    var varyings : Varyings;",
   "    varyings.bar = vec2<f32>(", "        1.0, 2.0);",
   "    varyings.position = vec4<f32>(1.0);", "    return varyings;", "\x7d", ""]

/-- A fragment-stage source that reads `varyings.foo`, which is never assigned. -/
def c7ReadLines : List String :=
  ["fn fs_main() \x7b", "    let x = varyings.foo;", "\x7d", ""]

/-- An assignment with no statement terminator before the closing brace. -/
def c7BadLines : List String :=
  ["fn vs_main() \x7b", "    varyings.baz = f32(1.0)", "\x7d", ""]

/-- A source assigning `varyings.foo` twice with the same explicit type but
never reading it. -/
def c8Lines : List String :=
  ["fn vs_main() -> Varyings \x7b", "    var varyings : Varyings;",
   "    varyings.foo = f32(1.0);", "    varyings.foo = f32(2.0);",
   "    return varyings;", "\x7d", ""]

/-- The resolver output for `c8Lines`: both assignments commented out, the
synthesized struct contains no field for `foo`. -/
def c8Out : List String :=
  ["struct Varyings \x7b\n\x7d;\n", "fn vs_main() -> Varyings \x7b",
   "    var varyings : Varyings;", "    // unused: varyings.foo = f32(1.0);",
   "    // unused: varyings.foo = f32(2.0);", "    return varyings;", "\x7d", ""]

/-- A fragment source whose `FragmentOutput` struct already declares a
`frag_depth` builtin and which assigns `out.depth`. -/
def depthExLines : List String :=
  ["struct FragmentOutput \x7b", "    @builtin(frag_depth) depth : f32,",
   "\x7d;", "fn fs_main() \x7b", "    out.depth = 0.5;", "\x7d", ""]

/-- The depth-resolver output for `depthExLines`: the builtin field occurs twice. -/
def depthExOut : List String :=
  ["struct FragmentOutput \x7b", "    @builtin(frag_depth) depth : f32,",
   "    @builtin(frag_depth) depth : f32,", "\x7d;", "fn fs_main() \x7b",
   "    out.depth = 0.5;", "\x7d", ""]

/-- Consistency of a types dict with the builtin varyings: any recorded type
for a builtin name is the builtin type.  This holds for every accumulator
the setter scan can reach (the builtin branch pre-seeds the builtin type and
the triage only keeps matching types). -/
def typesBuiltinOK (types : List (String × String)) : Prop :=
  ∀ n b, alGet builtinVaryings n = some b → ∀ t, alGet types n = some t → t = b

/-- The result of commenting out the unused `bar` assignment of `c7Lines`. -/
def c7OneOut : List String :=
  ["fn vs_main() -> Varyings \x7b", "    var varyings : Varyings;",
   "    // unused: varyings.bar = vec2<f32>(", "    // 1.0, 2.0);",
   "    varyings.position = vec4<f32>(1.0);", "    return varyings;", "\x7d", ""]

/-- A source assigning the same varying twice with conflicting explicit types. -/
def c8MismatchLines : List String :=
  ["fn vs_main() \x7b", "    varyings.foo = f32(1.0);",
   "    varyings.foo = vec2<f32>(1.0, 2.0);", "\x7d", ""]

/-- A source assigning the same varying twice with the same explicit type and
reading it in the fragment stage. -/
def c8GoodLines : List String :=
  ["fn vs_main() -> Varyings \x7b", "    varyings.foo = f32(1.0);",
   "    varyings.foo = f32(2.0);", "\x7d", "fn fs_main(v : Varyings) \x7b",
   "    let a = varyings.foo;", "\x7d", ""]

/-- A bare-literal assignment with no explicit type cast. -/
def c8BareLines : List String :=
  ["fn vs_main() \x7b", "    varyings.foo = 3.0;", "\x7d", ""]

/-- A fragment source with a `FragmentOutput` struct and an `out.depth`
assignment (the round-trip case of C9). -/
def depthOkLines : List String :=
  ["struct FragmentOutput \x7b", "    @location(0) color : vec4<f32>,",
   "\x7d;", "fn fs_main() \x7b", "    out.depth = 0.5;", "\x7d", ""]

/-- A fragment source that assigns `out.depth` without any `FragmentOutput`
struct definition. -/
def depthNoStructLines : List String :=
  ["fn fs_main() \x7b", "    out.depth = 0.5;", "\x7d", ""]

/-- A fragment source that never assigns `out.depth`. -/
def depthNoDepthLines : List String :=
  ["struct FragmentOutput \x7b", "\x7d;", ""]

/-- A shader-data phase that raises (used by the C1 witness). -/
def c1P1bad : PCData → Phase1Out := fun d => ⟨d, [], some .keyError⟩

/-- A `_compile_shaders` step that raises (used by the C1 witness). -/
def c1CshBad : CompileOut := ((Except.error PyErr.keyError : Except PyErr Nat), [])

/-! # Theorems -/

/-! ## Helper lemmas -/

theorem composePipelinesStep_shape (d : PCData) (envHash : String) (m : Nat)
    (cpl : Nat → CompileOut) (acc : List GpuCall) :
    ∃ wp, (composePipelinesStep d envHash m cpl acc).1
      = { d with wgpu_pipelines := wp } := by
  rcases h : alGet d.wgpu_pipelines envHash with _ | p
  · rcases hc : cpl m with ⟨res, calls⟩
    rcases res with e | p2
    · exact ⟨d.wgpu_pipelines, by simp [composePipelinesStep, h, hc]⟩
    · exact ⟨alSet d.wgpu_pipelines envHash p2, by simp [composePipelinesStep, h, hc]⟩
  · exact ⟨d.wgpu_pipelines, by simp [composePipelinesStep, h]⟩

theorem update_wgpu_data_shape (d : PCData) (envHash : String)
    (csh : CompileOut) (cpl : Nat → CompileOut) :
    ∃ ws wp, (update_wgpu_data d envHash csh cpl).1
      = { d with wgpu_shaders := ws, wgpu_pipelines := wp } := by
  rcases h : alGet d.wgpu_shaders envHash with _ | m
  · rcases hc : csh with ⟨res, calls⟩
    rcases res with e | m
    · exact ⟨d.wgpu_shaders, d.wgpu_pipelines, by simp [update_wgpu_data, h, hc]⟩
    · obtain ⟨wp, hwp⟩ := composePipelinesStep_shape
        { d with wgpu_shaders := alSet d.wgpu_shaders envHash m } envHash m cpl calls
      exact ⟨alSet d.wgpu_shaders envHash m, wp, by simp [update_wgpu_data, h, hc, hwp]⟩
  · obtain ⟨wp, hwp⟩ := composePipelinesStep_shape d envHash m cpl []
    exact ⟨d.wgpu_shaders, wp, by simp [update_wgpu_data, h, hwp]⟩

theorem updateGpuPhase_data (st : PCState) (envHash : String)
    (csh : CompileOut) (cpl : Nat → CompileOut) (acc : List GpuCall) :
    (updateGpuPhase st envHash csh cpl acc).1.data
      = (update_wgpu_data st.data envHash csh cpl).1 := by
  rcases h : update_wgpu_data st.data envHash csh cpl with ⟨d, calls, err⟩
  cases err <;> simp [updateGpuPhase, h]

theorem subListAt_append_right (pat xs ys : List Char) (h : subListAt pat ys = true) :
    subListAt pat (xs ++ ys) = true := by
  induction xs with
  | nil => simpa using h
  | cons c cs ih =>
    simp only [List.cons_append, subListAt, Bool.or_eq_true]
    exact Or.inr ih

theorem strContains_append_right (a b pat : String) (h : strContains b pat = true) :
    strContains (a ++ b) pat = true := by
  unfold strContains at *
  rw [String.data_append]
  exact subListAt_append_right _ _ _ h

theorem countP_pyListInsert (l : List String) (i : Nat) (a : String)
    (P : String → Bool) :
    (pyListInsert l i a).countP P = l.countP P + if P a then 1 else 0 := by
  unfold pyListInsert
  rw [List.countP_append, List.countP_cons]
  have hsplit := List.take_append_drop i l
  calc (l.take i).countP P + ((l.drop i).countP P + if P a then 1 else 0)
      = ((l.take i).countP P + (l.drop i).countP P) + if P a then 1 else 0 := by ring
    _ = (l.take i ++ l.drop i).countP P + if P a then 1 else 0 := by
        rw [List.countP_append]
    _ = l.countP P + if P a then 1 else 0 := by rw [hsplit]

/-! ## C9: depth-output resolution -/

/-- C9 counterexample: on a source whose `FragmentOutput` struct already
declares a `frag_depth` builtin field and which assigns `out.depth`, the
resolver splices in a second one, so the output contains the depth builtin
field twice — not "exactly one" as claimed. -/
theorem claim_C9_counterexample :
    resolveDepthLines depthExLines = .ok depthExOut
  ∧ depthExOut.countP (fun l => strContains l "@builtin(frag_depth)") = 2
  ∧ depthExLines.countP (fun l => depthSetterMatch l) = 1 := by
  decide

/-- C9 (amended): when some line assigns `out.depth` and a `FragmentOutput`
struct opener exists, exactly one depth builtin field is inserted directly
after the struct's opening line (so the output contains exactly one more
such field than the input); depth set with no struct definition is a fatal
error; and without any `out.depth` assignment the lines pass through
unchanged (the surrounding `resolve_depth_output` only trims blank lines). -/
theorem claim_C9_depth_output_resolution (lines : List String) :
    (∀ p, depthScan lines 0 false none = (true, some p) →
      resolveDepthLines lines
          = .ok (pyListInsert lines (p + 1) (indentOf (lines.getD p "") ++ depthField))
        ∧ (pyListInsert lines (p + 1) (indentOf (lines.getD p "") ++ depthField)).countP
              (fun l => strContains l "@builtin(frag_depth)")
            = lines.countP (fun l => strContains l "@builtin(frag_depth)") + 1)
  ∧ (depthScan lines 0 false none = (true, none) →
      resolveDepthLines lines = .error (.typeError "FragmentOutput definition not found."))
  ∧ (∀ b, depthScan lines 0 false none = (false, b) →
      resolveDepthLines lines = .ok lines) := by
  refine ⟨fun p hp => ⟨?_, ?_⟩, fun h => ?_, fun b h => ?_⟩
  · simp [resolveDepthLines, hp]
  · rw [countP_pyListInsert]
    have hc : strContains (indentOf (lines.getD p "") ++ depthField)
        "@builtin(frag_depth)" = true :=
      strContains_append_right _ _ _ (by decide)
    rw [hc]
    simp
  · simp [resolveDepthLines, h]
  · simp [resolveDepthLines, h]

/-- C9 witness: the three cases evaluated on concrete sources. -/
theorem claim_C9_witness :
    (resolveDepthLines depthOkLines
        = .ok (pyListInsert depthOkLines (0 + 1)
            (indentOf (depthOkLines.getD 0 "") ++ depthField))
      ∧ (pyListInsert depthOkLines (0 + 1)
            (indentOf (depthOkLines.getD 0 "") ++ depthField)).countP
            (fun l => strContains l "@builtin(frag_depth)")
          = depthOkLines.countP (fun l => strContains l "@builtin(frag_depth)") + 1)
  ∧ resolveDepthLines depthNoStructLines
      = .error (.typeError "FragmentOutput definition not found.")
  ∧ resolveDepthLines depthNoDepthLines = .ok depthNoDepthLines :=
  ⟨(claim_C9_depth_output_resolution depthOkLines).1 0 (by decide),
   (claim_C9_depth_output_resolution depthNoStructLines).2.1 (by decide),
   (claim_C9_depth_output_resolution depthNoDepthLines).2.2 (some 0) (by decide)⟩

theorem getD_set_ne (l : List String) (i j : Nat) (a : String) (h : i ≠ j) :
    (l.set i a).getD j "" = l.getD j "" := by
  induction l generalizing i j with
  | nil => simp
  | cons x xs ih =>
    cases i with
    | zero =>
      cases j with
      | zero => exact absurd rfl h
      | succ j2 => simp
    | succ i2 =>
      cases j with
      | zero => simp
      | succ j2 => simpa using ih i2 j2 (by omega)

theorem getD_set_self (l : List String) (i : Nat) (a : String) (h : i < l.length) :
    (l.set i a).getD i "" = a := by
  induction l generalizing i with
  | nil => simp at h
  | cons x xs ih =>
    cases i with
    | zero => simp
    | succ i2 => simpa using ih i2 (by simpa using h)

theorem contLoop_length (indent : String) :
    ∀ (fuel : Nat) (lines : List String) (lineS : String) (linenr : Nat)
      (out : List String),
    contLoop indent lines lineS linenr fuel = .ok out → out.length = lines.length := by
  intro fuel
  induction fuel with
  | zero => intro lines lineS linenr out h; simp [contLoop] at h
  | succ f ih =>
    intro lines lineS linenr out h
    rw [contLoop] at h
    split at h
    · cases h; rfl
    · split at h
      · cases h
      · have := ih _ _ _ _ h
        simpa using this

theorem checkAssigned_error (used assigned : List (String × List Nat)) (name : String)
    (hu : (alGet used name).isSome = true) (ha : alGet assigned name = none) :
    ∃ e, checkAssigned used assigned = .error e := by
  induction used with
  | nil => simp [alGet] at hu
  | cons p rest ih =>
    obtain ⟨n, l⟩ := p
    by_cases hn : n = name
    · subst hn
      have hs : (alGet assigned n).isSome = false := by simp [ha]
      exact ⟨.typeError ("Varying is read, but not assigned: " ++ n),
        by simp [checkAssigned, hs]⟩
    · by_cases hs : (alGet assigned n).isSome
      · have hu2 : (alGet rest name).isSome = true := by
          simpa [alGet, hn] using hu
        obtain ⟨e, he⟩ := ih hu2
        exact ⟨e, by simp [checkAssigned, hs, he]⟩
      · exact ⟨.typeError ("Varying is read, but not assigned: " ++ n),
          by simp [checkAssigned, hs]⟩

theorem contLoop_preserve (indent : String) :
    ∀ (fuel : Nat) (lines : List String) (lineS : String) (linenr : Nat)
      (out : List String),
    contLoop indent lines lineS linenr fuel = .ok out →
    ∀ i, (i ≤ linenr → out.getD i "" = lines.getD i "")
      ∧ (linenr < i → out.getD i "" = lines.getD i ""
          ∨ out.getD i "" = indent ++ "// " ++ pyStrip (lines.getD i "")) := by
  intro fuel
  induction fuel with
  | zero => intro lines lineS linenr out h; simp [contLoop] at h
  | succ f ih =>
    intro lines lineS linenr out h
    rw [contLoop] at h
    split at h
    · cases h
      intro i
      exact ⟨fun _ => rfl, fun _ => Or.inl rfl⟩
    · split at h
      · cases h
      · intro i
        have hrec := ih _ _ _ _ h i
        by_cases hle : i ≤ linenr
        · refine ⟨fun _ => ?_, fun hgt => absurd hgt (by omega)⟩
          have h1 := hrec.1 (by omega)
          rw [h1, getD_set_ne _ _ _ _ (by omega)]
        · have hgt : linenr < i := by omega
          refine ⟨fun hle2 => absurd hle2 (by omega), fun _ => ?_⟩
          by_cases hi : i = linenr + 1
          · subst hi
            have h1 := hrec.1 (le_refl _)
            by_cases hlen : linenr + 1 < lines.length
            · right
              rw [h1, getD_set_self _ _ _ hlen]
            · left
              have hset : lines.set (linenr + 1)
                  (indent ++ "// " ++ pyStrip (lines.getD (linenr + 1) "")) = lines := by
                apply List.set_eq_of_length_le
                omega
              rw [h1, hset]
          · have h2 := hrec.2 (by omega)
            rcases h2 with h2 | h2
            · left; rw [h2, getD_set_ne _ _ _ _ (by omega)]
            · right; rw [h2, getD_set_ne _ _ _ _ (by omega)]

theorem contLoop_noSemicolon (indent : String) :
    ∀ (fuel : Nat) (lines : List String) (lineS : String) (linenr : Nat),
    pyEndsWith lineS ";" = false →
    (∀ i, linenr < i → pyEndsWith (pyStrip (lines.getD i "")) ";" = false) →
    ∃ e, contLoop indent lines lineS linenr fuel = .error e := by
  intro fuel
  induction fuel with
  | zero =>
    exact fun lines lineS linenr h1 h2 =>
      ⟨.typeError "Varying assignment seems to be missing a semicolon", rfl⟩
  | succ f ih =>
    intro lines lineS linenr h1 h2
    by_cases hu : (startsWithAny (pyStrip (lines.getD (linenr + 1) "")) unexpectedStarts
        || linenr + 1 = lines.length - 1) = true
    · exact ⟨.typeError "Varying assignment seems to be missing a semicolon",
        by rw [contLoop, if_neg (by simp [h1]), if_pos hu]⟩
    · obtain ⟨e, he⟩ := ih
        (lines.set (linenr + 1) (indent ++ "// " ++ pyStrip (lines.getD (linenr + 1) "")))
        (pyStrip (lines.getD (linenr + 1) "")) (linenr + 1)
        (h2 _ (Nat.lt_succ_self _))
        (fun i hi => by
          rw [getD_set_ne _ _ _ _ (by omega)]
          exact h2 i (by omega))
      refine ⟨e, ?_⟩
      rw [contLoop, if_neg (by simp [h1]), if_neg hu]
      exact he

theorem commentOne_length (lines : List String) (nr : Nat) (out : List String)
    (h : commentOne lines nr = .ok out) : out.length = lines.length := by
  unfold commentOne at h
  have := contLoop_length _ _ _ _ _ _ h
  simpa using this

theorem commentOne_content (lines : List String) (nr : Nat) (out : List String)
    (hnr : nr < lines.length) (h : commentOne lines nr = .ok out) :
    out.getD nr "" = indentOf (lines.getD nr "") ++ "// unused: "
        ++ String.mk ((lines.getD nr "").data.drop (indentOf (lines.getD nr "")).data.length)
  ∧ ∀ i, i ≠ nr → (out.getD i "" = lines.getD i ""
      ∨ out.getD i "" = indentOf (lines.getD nr "") ++ "// " ++ pyStrip (lines.getD i "")) := by
  unfold commentOne at h
  have hp := contLoop_preserve _ _ _ _ _ _ h
  constructor
  · have h1 := (hp nr).1 (le_refl nr)
    rw [h1, getD_set_self _ _ _ hnr]
  · intro i hi
    by_cases hle : i ≤ nr
    · have h1 := (hp i).1 hle
      rw [h1, getD_set_ne _ _ _ _ (fun hh => hi hh.symm)]
      exact Or.inl rfl
    · have h2 := (hp i).2 (by omega)
      rcases h2 with h2 | h2
      · left
        rw [h2, getD_set_ne _ _ _ _ (fun hh => hi hh.symm)]
      · right
        rw [h2, getD_set_ne _ _ _ _ (fun hh => hi hh.symm)]

theorem commentOne_noSemicolon (lines : List String) (nr : Nat)
    (h : ∀ i, nr ≤ i → pyEndsWith (pyStrip (lines.getD i "")) ";" = false) :
    ∃ e, commentOne lines nr = .error e := by
  unfold commentOne
  apply contLoop_noSemicolon
  · have h0 := h nr (le_refl nr)
    simpa using h0
  · intro i hi
    rw [getD_set_ne _ _ _ _ (by omega)]
    exact h i (by omega)

theorem commentOutNrs_length :
    ∀ (nrs : List Nat) (lines out : List String),
    commentOutNrs nrs lines = .ok out → out.length = lines.length := by
  intro nrs
  induction nrs with
  | nil => intro lines out h; cases h; rfl
  | cons nr rest ih =>
    intro lines out h
    unfold commentOutNrs at h
    rcases h1 : commentOne lines nr with e | l2
    · rw [h1] at h; cases h
    · rw [h1] at h
      have := ih _ _ h
      rw [this, commentOne_length _ _ _ h1]

theorem commentOut_length :
    ∀ (assigned used : List (String × List Nat)) (lines out : List String),
    commentOut assigned used lines = .ok out → out.length = lines.length := by
  intro assigned
  induction assigned with
  | nil => intro used lines out h; cases h; rfl
  | cons p rest ih =>
    intro used lines out h
    obtain ⟨name, nrs⟩ := p
    unfold commentOut at h
    by_cases hs : (alGet used name).isSome
    · rw [if_pos hs] at h
      exact ih _ _ _ h
    · rw [if_neg hs] at h
      rcases h1 : commentOutNrs nrs lines with e | l2
      · rw [h1] at h; cases h
      · rw [h1] at h
        have := ih _ _ _ h
        rw [this, commentOutNrs_length _ _ _ h1]

/-! ## C7: varying read/write resolution -/

/-- C7: (1) a varying recorded as read (outside the vertex stage) with no
assignment anywhere makes resolution fail with a templating error; (2)
commenting out unused assignments never changes the number of lines; (3) a
commented-out assignment keeps its first line (prefixed `// unused: ` after
the original indentation) and turns each continuation line either into the
original line or into `indent ++ "// " ++ stripped-line` — nothing is
deleted; (4) an assignment whose statement terminator is never found makes
the comment-out step raise a templating error; (5) such an error aborts the
whole resolution. -/
theorem claim_C7_varying_resolution :
    (∀ (lines : List String) (acc : SetterAcc) (st : GetterSt) (name : String),
      setterPass lines = .ok acc →
      getterPass lines acc.assigned acc.used = .ok st →
      (alGet st.used name).isSome = true →
      alGet acc.assigned name = none →
      ∃ e, resolveVaryingsLines lines = .error e)
  ∧ (∀ (assigned used : List (String × List Nat)) (lines out : List String),
      commentOut assigned used lines = .ok out → out.length = lines.length)
  ∧ (∀ (lines : List String) (nr : Nat) (out : List String),
      nr < lines.length → commentOne lines nr = .ok out →
      out.getD nr "" = indentOf (lines.getD nr "") ++ "// unused: "
          ++ String.mk ((lines.getD nr "").data.drop (indentOf (lines.getD nr "")).data.length)
        ∧ ∀ i, i ≠ nr → (out.getD i "" = lines.getD i ""
            ∨ out.getD i "" = indentOf (lines.getD nr "") ++ "// " ++ pyStrip (lines.getD i "")))
  ∧ (∀ (lines : List String) (nr : Nat),
      (∀ i, nr ≤ i → pyEndsWith (pyStrip (lines.getD i "")) ";" = false) →
      ∃ e, commentOne lines nr = .error e)
  ∧ (∀ (lines : List String) (acc : SetterAcc) (st : GetterSt) (e : PyErr),
      setterPass lines = .ok acc →
      getterPass lines acc.assigned acc.used = .ok st →
      checkAssigned st.used acc.assigned = .ok () →
      commentOut acc.assigned st.used lines = .error e →
      resolveVaryingsLines lines = .error e) := by
  refine ⟨fun lines acc st name hs hg hu ha => ?_,
    fun assigned used lines out h => commentOut_length assigned used lines out h,
    fun lines nr out h1 h2 => commentOne_content lines nr out h1 h2,
    fun lines nr h => commentOne_noSemicolon lines nr h,
    fun lines acc st e hs hg hc hcm => ?_⟩
  · obtain ⟨e, he⟩ := checkAssigned_error st.used acc.assigned name hu ha
    exact ⟨e, by simp only [resolveVaryingsLines, hs, hg, he]⟩
  · simp only [resolveVaryingsLines, hs, hg, hc, hcm]

/-- C7 witness: a read of never-assigned `foo` fails; commenting out the
unused multi-line `bar` assignment of `c7Lines` preserves the line count and
rewrites the affected lines in place; the terminator-less assignment of
`c7BadLines` makes the comment-out step, and the whole resolution, fail. -/
theorem claim_C7_witness :
    (∃ e, resolveVaryingsLines c7ReadLines = .error e)
  ∧ c7OneOut.length = c7Lines.length
  ∧ c7OneOut.getD 2 "" = indentOf (c7Lines.getD 2 "") ++ "// unused: "
      ++ String.mk ((c7Lines.getD 2 "").data.drop (indentOf (c7Lines.getD 2 "")).data.length)
  ∧ (∃ e, commentOne c7BadLines 1 = .error e)
  ∧ resolveVaryingsLines c7BadLines
      = .error (.typeError "Varying assignment seems to be missing a semicolon") :=
  ⟨claim_C7_varying_resolution.1 c7ReadLines ⟨[], [], []⟩ ⟨[("foo", [1])], none, false, 0⟩
      "foo" (by decide) (by decide) (by decide) (by decide),
   claim_C7_varying_resolution.2.1 [("bar", [2]), ("position", [4])] [("position", [])]
      c7Lines c7OneOut (by decide),
   (claim_C7_varying_resolution.2.2.1 c7Lines 2 c7OneOut (by decide) (by decide)).1,
   claim_C7_varying_resolution.2.2.2.1 c7BadLines 1 (fun i hi => by
      by_cases hlen : i < 4
      · interval_cases i <;> decide
      · have hge : c7BadLines.length ≤ i := by
          have h4 : c7BadLines.length = 4 := by decide
          omega
        rw [List.getD_eq_default _ _ hge]
        decide),
   claim_C7_varying_resolution.2.2.2.2 c7BadLines ⟨[("baz", [1])], [("baz", "f32")], []⟩
      ⟨[], none, true, 0⟩ (.typeError "Varying assignment seems to be missing a semicolon")
      (by decide) (by decide) (by decide) (by decide)⟩

/-! ## C2: update with an empty changed set -/

/-- C2 counterexample: with an empty `changedAspects` set, a non-broken
container whose environment key has no compiled shaders still enters the
GPU-object phase: it compiles a shader module and a pipeline (GPU calls)
and mutates `wgpu_shaders` / `wgpu_pipelines`, so the call is not a no-op. -/
theorem claim_C2_counterexample :
    (PipelineContainer.update c2State false "" c2P1 c2Csh c2Cpl).1.data.wgpu_shaders = [("", 7)]
  ∧ (PipelineContainer.update c2State false "" c2P1 c2Csh c2Cpl).1.data.wgpu_pipelines = [("", 9)]
  ∧ c2State.data.wgpu_shaders = []
  ∧ c2State.data.wgpu_pipelines = []
  ∧ (PipelineContainer.update c2State false "" c2P1 c2Csh c2Cpl).2.1
      = [GpuCall.createShaderModule, GpuCall.createPipeline] := by
  decide

/-- C2 (amended): with an empty changed set the shader-data phase is skipped,
so the shader-supplied layers (resources, pipeline_info, render_info, shader
hash, bind-group data, flat resources) are never touched — at most the
`wgpu_shaders` / `wgpu_pipelines` caches change; a broken container returns
unchanged with no GPU calls; and when the environment key already has both
compiled shaders and pipelines the call is a complete no-op with no GPU
calls and no exception. -/
theorem claim_C2_empty_update_behavior (st : PCState) (envHash : String)
    (p1 : PCData → Phase1Out) (csh : CompileOut) (cpl : Nat → CompileOut) :
    (∃ ws wp, (PipelineContainer.update st false envHash p1 csh cpl).1.data
        = { st.data with wgpu_shaders := ws, wgpu_pipelines := wp })
  ∧ (pyTruthy st.broken = true →
      PipelineContainer.update st false envHash p1 csh cpl = (st, [], none))
  ∧ (st.broken = 0 → (alGet st.data.wgpu_shaders envHash).isSome = true →
      (alGet st.data.wgpu_pipelines envHash).isSome = true →
      PipelineContainer.update st false envHash p1 csh cpl = (st, [], none)) := by
  refine ⟨?_, fun hb => ?_, fun hb hs hp => ?_⟩
  · by_cases hb : pyTruthy st.broken
    · exact ⟨st.data.wgpu_shaders, st.data.wgpu_pipelines,
        by simp [PipelineContainer.update, hb]⟩
    · obtain ⟨ws, wp, hw⟩ := update_wgpu_data_shape st.data envHash csh cpl
      refine ⟨ws, wp, ?_⟩
      simp only [PipelineContainer.update, hb, if_false, Bool.false_eq_true]
      rw [updateGpuPhase_data, hw]
  · simp [PipelineContainer.update, hb]
  · obtain ⟨m, hm⟩ := Option.isSome_iff_exists.mp hs
    obtain ⟨p, hp2⟩ := Option.isSome_iff_exists.mp hp
    have hbt : pyTruthy st.broken = false := by simp [pyTruthy, hb]
    obtain ⟨br, d⟩ := st
    simp only at hb
    subst hb
    simp [PipelineContainer.update, hbt, updateGpuPhase, update_wgpu_data, hm,
      composePipelinesStep, hp2]

/-- C2 witness: the amended behavior evaluated at concrete containers — a
broken container and a fully-cached container are untouched. -/
theorem claim_C2_witness :
    PipelineContainer.update ⟨1, c2State.data⟩ false "" c2P1 c2Csh c2Cpl
      = (⟨1, c2State.data⟩, [], none)
  ∧ PipelineContainer.update
        ⟨0, ⟨0, none, none, none, [], [], [], [], [("", 7)], [("", 9)]⟩⟩ false "" c2P1 c2Csh c2Cpl
      = (⟨0, ⟨0, none, none, none, [], [], [], [], [("", 7)], [("", 9)]⟩⟩, [], none) :=
  ⟨(claim_C2_empty_update_behavior ⟨1, c2State.data⟩ "" c2P1 c2Csh c2Cpl).2.1 (by decide),
   (claim_C2_empty_update_behavior _ "" c2P1 c2Csh c2Cpl).2.2 rfl (by decide) (by decide)⟩

/-! ## C1: the broken-container protocol -/

/-- C1: a broken container is inert — `dispatch` and `draw` return without
any GPU call, and an update with an empty changed set leaves it untouched;
a shader-data-phase exception sets `broken` to the distinguished value 1 and
re-raises; a GPU-object-phase exception sets it to the distinguished value 2
and re-raises; when both phases complete, `broken` ends falsy — and for a
broken container that is the only way it clears. -/
theorem claim_C1_broken_container_protocol :
    (∀ c : ComputeState, pyTruthy c.broken = true → compute_dispatch c = .ok [])
  ∧ (∀ (r : RenderState) (envHash : String) (passIndex renderMask : Nat),
      pyTruthy r.broken = true → render_draw r envHash passIndex renderMask = .ok [])
  ∧ (∀ (st : PCState) (envHash : String) (p1 : PCData → Phase1Out)
        (csh : CompileOut) (cpl : Nat → CompileOut), pyTruthy st.broken = true →
      PipelineContainer.update st false envHash p1 csh cpl = (st, [], none))
  ∧ (∀ (st : PCState) (envHash : String) (p1 : PCData → Phase1Out)
        (csh : CompileOut) (cpl : Nat → CompileOut) (d : PCData)
        (calls : List GpuCall) (e : PyErr),
      p1 st.data = ⟨d, calls, some e⟩ →
      PipelineContainer.update st true envHash p1 csh cpl = (⟨1, d⟩, calls, some e))
  ∧ (∀ (st : PCState) (envHash : String) (p1 : PCData → Phase1Out)
        (csh : CompileOut) (cpl : Nat → CompileOut) (d d2 : PCData)
        (calls calls2 : List GpuCall) (e : PyErr),
      p1 st.data = ⟨d, calls, none⟩ →
      update_wgpu_data d envHash csh cpl = (d2, calls2, some e) →
      PipelineContainer.update st true envHash p1 csh cpl
        = (⟨2, d2⟩, calls ++ calls2, some e))
  ∧ (∀ (st : PCState) (envHash : String) (p1 : PCData → Phase1Out)
        (csh : CompileOut) (cpl : Nat → CompileOut) (d d2 : PCData)
        (calls calls2 : List GpuCall),
      p1 st.data = ⟨d, calls, none⟩ →
      update_wgpu_data d envHash csh cpl = (d2, calls2, none) →
      PipelineContainer.update st true envHash p1 csh cpl
        = (⟨0, d2⟩, calls ++ calls2, none))
  ∧ (∀ (st : PCState) (changed : Bool) (envHash : String) (p1 : PCData → Phase1Out)
        (csh : CompileOut) (cpl : Nat → CompileOut),
      pyTruthy st.broken = true →
      ((PipelineContainer.update st changed envHash p1 csh cpl).1.broken = 0 ↔
        (changed = true ∧ (p1 st.data).err = none
          ∧ (update_wgpu_data (p1 st.data).data envHash csh cpl).2.2 = none))) := by
  refine ⟨fun c hb => ?_, fun r envHash pi m hb => ?_, fun st envHash p1 csh cpl hb => ?_,
    fun st envHash p1 csh cpl d calls e hp => ?_,
    fun st envHash p1 csh cpl d d2 calls calls2 e hp hw => ?_,
    fun st envHash p1 csh cpl d d2 calls calls2 hp hw => ?_,
    fun st changed envHash p1 csh cpl hb => ?_⟩
  · simp [compute_dispatch, hb]
  · simp [render_draw, hb]
  · simp [PipelineContainer.update, hb]
  · simp [PipelineContainer.update, hp]
  · simp [PipelineContainer.update, hp, updateGpuPhase, hw]
  · simp [PipelineContainer.update, hp, updateGpuPhase, hw]
  · cases changed
    · simp only [PipelineContainer.update, hb, if_true, Bool.false_eq_true, if_false]
      constructor
      · intro h0
        exact absurd h0 (by simpa [pyTruthy] using hb)
      · rintro ⟨h, -⟩
        exact absurd h (by simp)
    · rcases hp : p1 st.data with ⟨d, calls, err⟩
      rcases err with _ | e
      · rcases hw : update_wgpu_data d envHash csh cpl with ⟨d2, calls2, err2⟩
        rcases err2 with _ | e2
        · simp [PipelineContainer.update, hp, updateGpuPhase, hw]
        · simp [PipelineContainer.update, hp, updateGpuPhase, hw]
      · simp [PipelineContainer.update, hp]

/-- C1 witness: the protocol evaluated on concrete containers — a broken
compute container and render container are inert, an empty-changed update
leaves a broken container broken, a failing shader-data phase marks 1 and
re-raises, a failing GPU phase marks 2 and re-raises, and a fully successful
update clears the flag. -/
theorem claim_C1_witness :
    compute_dispatch ⟨1, [1, 1, 1], [], []⟩ = .ok []
  ∧ render_draw ⟨2, 1, [3, 1, 0, 0], none, [], [], []⟩ "e" 0 1 = .ok []
  ∧ PipelineContainer.update ⟨2, c2State.data⟩ false "" c2P1 c2Csh c2Cpl
      = (⟨2, c2State.data⟩, [], none)
  ∧ PipelineContainer.update ⟨2, c2State.data⟩ true "" c1P1bad c2Csh c2Cpl
      = (⟨1, c2State.data⟩, [], some .keyError)
  ∧ PipelineContainer.update ⟨0, c2State.data⟩ true "" c2P1 c1CshBad c2Cpl
      = (⟨2, c2State.data⟩, [], some .keyError)
  ∧ PipelineContainer.update ⟨2, c2State.data⟩ true "" c2P1 c2Csh c2Cpl
      = (⟨0, { c2State.data with wgpu_shaders := [("", 7)], wgpu_pipelines := [("", 9)] }⟩,
         [GpuCall.createShaderModule, GpuCall.createPipeline], none) :=
  ⟨claim_C1_broken_container_protocol.1 _ (by decide),
   claim_C1_broken_container_protocol.2.1 _ "e" 0 1 (by decide),
   claim_C1_broken_container_protocol.2.2.1 _ "" c2P1 c2Csh c2Cpl (by decide),
   claim_C1_broken_container_protocol.2.2.2.1 _ "" c1P1bad c2Csh c2Cpl _ _ _ rfl,
   claim_C1_broken_container_protocol.2.2.2.2.1 _ "" c2P1 c1CshBad c2Cpl _ _ _ _ _ rfl (by decide),
   claim_C1_broken_container_protocol.2.2.2.2.2.1 _ "" c2P1 c2Csh c2Cpl _ _ _ _ rfl (by decide)⟩

/-! ## C5: texture/auto sample-type derivation -/

/-- C5: for a `texture/auto` binding the sample type is derived from the
texel format by substring tests in source order — "float" or "norm" give
float, else "uint" gives uint, else "sint" gives sint, else "depth" gives
depth, and any other format raises a configuration (`ValueError`) error. -/
theorem claim_C5_auto_sample_type (fmt : String) :
    ((strContains fmt "float" || strContains fmt "norm") = true →
      autoSampleType fmt = .ok .float)
  ∧ ((strContains fmt "float" || strContains fmt "norm") = false →
      strContains fmt "uint" = true → autoSampleType fmt = .ok .uint)
  ∧ ((strContains fmt "float" || strContains fmt "norm") = false →
      strContains fmt "uint" = false → strContains fmt "sint" = true →
      autoSampleType fmt = .ok .sint)
  ∧ ((strContains fmt "float" || strContains fmt "norm") = false →
      strContains fmt "uint" = false → strContains fmt "sint" = false →
      strContains fmt "depth" = true → autoSampleType fmt = .ok .depth)
  ∧ ((strContains fmt "float" || strContains fmt "norm") = false →
      strContains fmt "uint" = false → strContains fmt "sint" = false →
      strContains fmt "depth" = false →
      autoSampleType fmt = .error (.valueError "Could not determine texture sample type.")) := by
  refine ⟨fun h => ?_, fun h1 h2 => ?_, fun h1 h2 h3 => ?_,
    fun h1 h2 h3 h4 => ?_, fun h1 h2 h3 h4 => ?_⟩ <;>
    simp [autoSampleType, *]

/-- C5 witness: the derivation evaluated on concrete texel formats. -/
theorem claim_C5_witness :
    autoSampleType "rgba8unorm" = .ok .float
  ∧ autoSampleType "r32uint" = .ok .uint
  ∧ autoSampleType "r16sint" = .ok .sint
  ∧ autoSampleType "depth24plus" = .ok .depth
  ∧ autoSampleType "stencil8" = .error (.valueError "Could not determine texture sample type.") :=
  ⟨(claim_C5_auto_sample_type "rgba8unorm").1 (by decide),
   (claim_C5_auto_sample_type "r32uint").2.1 (by decide) (by decide),
   (claim_C5_auto_sample_type "r16sint").2.2.1 (by decide) (by decide) (by decide),
   (claim_C5_auto_sample_type "depth24plus").2.2.2.1 (by decide) (by decide) (by decide) (by decide),
   (claim_C5_auto_sample_type "stencil8").2.2.2.2 (by decide) (by decide) (by decide) (by decide)⟩

/-! ## C4: render_info validation -/

/-- C4 counterexample: the compute-container check accepts a negative
dispatch dimension — `_check_render_info` only asserts int-ness and length 3,
so the claimed "non-negative" requirement is not enforced. -/
theorem claim_C4_counterexample :
    compute_check_render_info [-1, 1, 1] = .ok [-1, 1, 1] ∧ (-1 : Int) < 0 := by
  decide

/-- C4 (amended): a render container accepts `indices` of length 2, 4 or 5,
normalizing length 2 to `(a, b, 0, 0)` and passing 4/5 through unchanged,
with render mask in {1,2,3}; any other length or mask is an assertion
(configuration) error; a compute container requires exactly 3 integers —
their sign is not checked. -/
theorem claim_C4_render_info_validation :
    (∀ (a b mask : Int), (mask = 1 ∨ mask = 2 ∨ mask = 3) →
      render_check_render_info [a, b] mask = .ok [a, b, 0, 0])
  ∧ (∀ (indices : List Int) (mask : Int), (indices.length = 4 ∨ indices.length = 5) →
      (mask = 1 ∨ mask = 2 ∨ mask = 3) →
      render_check_render_info indices mask = .ok indices)
  ∧ (∀ (indices : List Int) (mask : Int),
      indices.length ≠ 2 → indices.length ≠ 4 → indices.length ≠ 5 →
      render_check_render_info indices mask = .error .assertionError)
  ∧ (∀ (indices : List Int) (mask : Int), mask ≠ 1 → mask ≠ 2 → mask ≠ 3 →
      render_check_render_info indices mask = .error .assertionError)
  ∧ (∀ indices : List Int,
      compute_check_render_info indices
        = if indices.length = 3 then .ok indices else .error .assertionError) := by
  refine ⟨?_, ?_, ?_, ?_, fun _ => rfl⟩
  · intro a b mask hm
    simp [render_check_render_info, hm]
  · intro indices mask hl hm
    rcases hl with h | h <;> simp [render_check_render_info, h, hm]
  · intro indices mask h2 h4 h5
    simp [render_check_render_info, h2, h4, h5]
  · intro indices mask h1 h2 h3
    by_cases hl : indices.length = 2 ∨ indices.length = 4 ∨ indices.length = 5 <;>
      simp [render_check_render_info, hl, h1, h2, h3]

/-- C4 witness: the validation evaluated on concrete render infos. -/
theorem claim_C4_witness :
    render_check_render_info [3, 1] 1 = .ok [3, 1, 0, 0]
  ∧ render_check_render_info [6, 1, 0, 0] 2 = .ok [6, 1, 0, 0]
  ∧ render_check_render_info [1, 1, 1] 1 = .error .assertionError
  ∧ render_check_render_info [3, 1] 4 = .error .assertionError
  ∧ compute_check_render_info [1, 2, 3] = .ok [1, 2, 3] :=
  ⟨claim_C4_render_info_validation.1 3 1 1 (Or.inl rfl),
   claim_C4_render_info_validation.2.1 [6, 1, 0, 0] 2 (Or.inl (by decide)) (Or.inr (Or.inl rfl)),
   claim_C4_render_info_validation.2.2.1 [1, 1, 1] 1 (by decide) (by decide) (by decide),
   claim_C4_render_info_validation.2.2.2.1 [3, 1] 4 (by decide) (by decide) (by decide),
   by decide⟩

/-! ## C3: ComputePipelineContainer.dispatch -/

/-- C3: on any non-broken compute container, `dispatch` raises
`AttributeError` before encoding any pass command, because its first
statement reads `self.wgpu_pipeline` — an attribute never assigned anywhere
(the compiled pipelines are stored under `wgpu_pipelines`). -/
theorem claim_C3_dispatch_uses_missing_attribute (c : ComputeState) (h : c.broken = 0) :
    compute_dispatch c = .error .attributeError := by
  have hA : computeAttrExists "wgpu_pipeline" = false := by decide
  simp [compute_dispatch, pyTruthy, h, hA]

/-- C3 witness: a fully-built, non-broken compute container still fails. -/
theorem claim_C3_witness :
    compute_dispatch ⟨0, [1, 1, 1], [4], [("", 5)]⟩ = .error .attributeError :=
  claim_C3_dispatch_uses_missing_attribute _ rfl

/-! ## C10: generate_wgsl restores the template-variable set -/

/-- C10: `generate_wgsl` saves `self.kwargs`, works on an updated copy, and
restores the saved dict in its `finally` block, so the shader state — and
hence the byte string later hashed by `hash()` — is unchanged whether the
body returns source text or raises. -/
theorem claim_C10_generate_wgsl_preserves_kwargs (s : ShaderState)
    (extra : List (String × String))
    (body : List (String × String) → List (String × String) × Except PyErr String) :
    (generate_wgsl s extra body).1 = s
  ∧ hashMessage (generate_wgsl s extra body).1 = hashMessage s := by
  constructor <;> rfl

/-! ## C6: shader hash -/

/-- C6 counterexample: (1) two shaders with different typedef fragment
dictionaries feed the same byte string to SHA-1 (the fragment values are
newline-joined, which erases the boundary), so they hash identically; (2)
two shaders whose variable dicts are equal as mappings but were built in a
different insertion order feed different byte strings to SHA-1 (`repr` of a
dict is order-sensitive), so the claimed "identical variables hash
identically" direction also fails. -/
theorem claim_C6_counterexample :
    (hashMessage hashExA = hashMessage hashExB
      ∧ hashExA.typedefs ≠ hashExB.typedefs
      ∧ hashExA.kwargs = hashExB.kwargs
      ∧ hashExA.binding_codes = hashExB.binding_codes)
  ∧ (alGet hashExB.kwargs "a" = alGet hashExC.kwargs "a"
      ∧ alGet hashExB.kwargs "b" = alGet hashExC.kwargs "b"
      ∧ hashExB.kwargs.length = hashExC.kwargs.length
      ∧ hashExB.typedefs = hashExC.typedefs
      ∧ hashExB.binding_codes = hashExC.binding_codes
      ∧ hashMessage hashExB ≠ hashMessage hashExC) := by
  decide

/-- C6 (amended): `hash()` is a deterministic digest of the serialized
(insertion-ordered) variable dict plus the concatenated definition
fragments: equal serialized kwargs and equal concatenated definitions give
equal hashes.  The converse fails (see the counterexample). -/
theorem claim_C6_hash_determined_by_serialized_state (s1 s2 : ShaderState)
    (hk : s1.kwargs = s2.kwargs) (hd : code_definitions s1 = code_definitions s2) :
    hashMessage s1 = hashMessage s2 := by
  unfold hashMessage reprStrDict
  rw [hk, hd]

/-- C6 witness: two shaders with identical variables and identical
concatenated definitions (under different fragment keys) hash identically. -/
theorem claim_C6_witness :
    hashMessage ⟨[("x", "1")], [("t", "T")], []⟩
      = hashMessage ⟨[("x", "1")], [("u", "T")], []⟩ :=
  claim_C6_hash_determined_by_serialized_state _ _ rfl (by decide)

/-! ## C8: varying type agreement -/

theorem alGet_alSet {β : Type} (m : List (String × β)) (k : String) (v : β) (n : String) :
    alGet (alSet m k v) n = if k = n then some v else alGet m n := by
  induction m with
  | nil => by_cases h : k = n <;> simp [alGet, alSet, h]
  | cons p rest ih =>
    obtain ⟨k1, v1⟩ := p
    by_cases h1 : k1 = k
    · subst h1
      by_cases h2 : k1 = n <;> simp [alGet, alSet, h2]
    · by_cases h2 : k1 = n
      · subst h2
        have hkn : ¬k = k1 := fun hh => h1 hh.symm
        simp [alGet, alSet, h1, hkn]
      · simp [alGet, alSet, h1, h2, ih]

theorem typesBuiltinOK_nil : typesBuiltinOK [] := by
  intro n b hb t ht
  simp [alGet] at ht

theorem seedBuiltin_types_get (acc : SetterAcc) (nm name : String)
    (hOK : typesBuiltinOK acc.types) (t : String) (h : alGet acc.types name = some t) :
    alGet (seedBuiltin acc nm).types name = some t := by
  unfold seedBuiltin
  rcases hb : alGet builtinVaryings nm with _ | bty
  · exact h
  · simp only
    rw [alGet_alSet]
    by_cases he : nm = name
    · subst he
      rw [if_pos rfl]
      rw [hOK nm bty hb t h]
    · rw [if_neg he]
      exact h

theorem seedBuiltin_typesOK (acc : SetterAcc) (nm : String)
    (hOK : typesBuiltinOK acc.types) : typesBuiltinOK (seedBuiltin acc nm).types := by
  unfold seedBuiltin
  rcases hb : alGet builtinVaryings nm with _ | bty
  · exact hOK
  · intro n b hb2 t ht
    simp only at ht
    rw [alGet_alSet] at ht
    by_cases he : nm = n
    · subst he
      rw [if_pos rfl] at ht
      cases ht
      rw [hb] at hb2
      cases hb2
      rfl
    · rw [if_neg he] at ht
      exact hOK n b hb2 t ht

theorem setterStep_sets (acc : SetterAcc) (n : Nat) (line : String) (name : String)
    (rest : List Char) (t : String)
    (hm : matchSetter line = some (name, none, rest))
    (ht : normVaryingType (extractType rest) = t) (hne : t ≠ "")
    (acc2 : SetterAcc) (hok : setterStep acc n line = .ok acc2) :
    alGet acc2.types name = some t := by
  unfold setterStep at hok
  rw [hm] at hok
  simp only [Option.isSome_none, Bool.false_eq_true, if_false, ht] at hok
  rw [if_neg hne] at hok
  rcases hl : alGet (seedBuiltin acc name).types name with _ | t0 <;> simp only [hl] at hok
  · cases hok
    simp only
    rw [alGet_alSet, if_pos rfl]
  · by_cases hd : t ≠ t0
    · rw [if_pos hd] at hok
      cases hok
    · rw [if_neg hd] at hok
      cases hok
      simp only
      rw [alGet_alSet, if_pos rfl]

theorem setterStep_preserves (acc : SetterAcc) (n : Nat) (line : String)
    (name t : String) (hOK : typesBuiltinOK acc.types)
    (h : alGet acc.types name = some t)
    (acc2 : SetterAcc) (hok : setterStep acc n line = .ok acc2) :
    alGet acc2.types name = some t := by
  unfold setterStep at hok
  rcases hm : matchSetter line with _ | ⟨nm, attr, rest⟩ <;> simp only [hm] at hok
  · cases hok
    exact h
  · have hA : alGet (seedBuiltin acc nm).types name = some t :=
      seedBuiltin_types_get acc nm name hOK t h
    by_cases hattr : attr.isSome
    · rw [if_pos hattr] at hok
      cases hok
      exact hA
    · rw [if_neg hattr] at hok
      by_cases hty : normVaryingType (extractType rest) = ""
      · rw [if_pos hty] at hok
        cases hok
      · rw [if_neg hty] at hok
        rcases hl : alGet (seedBuiltin acc nm).types nm with _ | t0 <;> simp only [hl] at hok
        · cases hok
          simp only
          rw [alGet_alSet]
          by_cases he : nm = name
          · subst he
            rw [hl] at hA
            cases hA
          · rw [if_neg he]
            exact hA
        · by_cases hd : normVaryingType (extractType rest) ≠ t0
          · rw [if_pos hd] at hok
            cases hok
          · rw [if_neg hd] at hok
            cases hok
            simp only
            rw [alGet_alSet]
            by_cases he : nm = name
            · subst he
              rw [if_pos rfl]
              rw [hl] at hA
              cases hA
              push_neg at hd
              rw [hd]
            · rw [if_neg he]
              exact hA

theorem setterStep_typesOK (acc : SetterAcc) (n : Nat) (line : String)
    (hOK : typesBuiltinOK acc.types) (acc2 : SetterAcc)
    (hok : setterStep acc n line = .ok acc2) : typesBuiltinOK acc2.types := by
  unfold setterStep at hok
  rcases hm : matchSetter line with _ | ⟨nm, attr, rest⟩ <;> simp only [hm] at hok
  · cases hok; exact hOK
  · have hOK2 : typesBuiltinOK (seedBuiltin acc nm).types := seedBuiltin_typesOK acc nm hOK
    by_cases hattr : attr.isSome
    · rw [if_pos hattr] at hok
      cases hok
      exact hOK2
    · rw [if_neg hattr] at hok
      by_cases hty : normVaryingType (extractType rest) = ""
      · rw [if_pos hty] at hok
        cases hok
      · rw [if_neg hty] at hok
        rcases hl : alGet (seedBuiltin acc nm).types nm with _ | t0 <;> simp only [hl] at hok
        · cases hok
          intro n2 b hb t2 ht2
          simp only at ht2
          rw [alGet_alSet] at ht2
          by_cases he : nm = n2
          · subst he
            -- builtin nm would have been pre-seeded, contradicting the `none` lookup
            exfalso
            unfold seedBuiltin at hl
            rw [hb] at hl
            simp only at hl
            rw [alGet_alSet, if_pos rfl] at hl
            cases hl
          · rw [if_neg he] at ht2
            exact hOK2 n2 b hb t2 ht2
        · by_cases hd : normVaryingType (extractType rest) ≠ t0
          · rw [if_pos hd] at hok
            cases hok
          · rw [if_neg hd] at hok
            cases hok
            push_neg at hd
            intro n2 b hb t2 ht2
            simp only at ht2
            rw [alGet_alSet] at ht2
            by_cases he : nm = n2
            · subst he
              rw [if_pos rfl] at ht2
              cases ht2
              rw [hd]
              exact hOK2 nm b hb t0 hl
            · rw [if_neg he] at ht2
              exact hOK2 n2 b hb t2 ht2



theorem setterStep_bare (acc : SetterAcc) (n : Nat) (line : String) (name : String)
    (rest : List Char) (hm : matchSetter line = some (name, none, rest))
    (hty : normVaryingType (extractType rest) = "") :
    setterStep acc n line
      = .error (.typeError ("Varying assignment needs an explicit cast: " ++ name)) := by
  simp [setterStep, hm, hty]

theorem setterAux_bare : ∀ (ls : List String) (idx : Nat) (acc : SetterAcc)
    (i : Nat) (name : String) (rest : List Char),
    i < ls.length → matchSetter (ls.getD i "") = some (name, none, rest) →
    normVaryingType (extractType rest) = "" →
    ∃ e, setterAux ls idx acc = .error e := by
  intro ls
  induction ls with
  | nil => intro idx acc i name rest hi hm hty; simp at hi
  | cons l tail ih =>
    intro idx acc i name rest hi hm hty
    cases i with
    | zero =>
      have hb := setterStep_bare acc idx l name rest (by simpa using hm) hty
      exact ⟨.typeError ("Varying assignment needs an explicit cast: " ++ name),
        by simp [setterAux, hb]⟩
    | succ i2 =>
      rcases hstep : setterStep acc idx l with e | acc2
      · exact ⟨e, by simp [setterAux, hstep]⟩
      · obtain ⟨e, he⟩ := ih (idx + 1) acc2 i2 name rest (by simpa using hi)
          (by simpa using hm) hty
        exact ⟨e, by simp [setterAux, hstep, he]⟩

theorem setterAux_conflict_after : ∀ (ls : List String) (idx : Nat) (acc : SetterAcc)
    (name t1 : String), typesBuiltinOK acc.types → alGet acc.types name = some t1 →
    ∀ (j : Nat) (r2 : List Char) (t2 : String), j < ls.length →
    matchSetter (ls.getD j "") = some (name, none, r2) →
    normVaryingType (extractType r2) = t2 → t2 ≠ "" → t2 ≠ t1 →
    ∃ e, setterAux ls idx acc = .error e := by
  intro ls
  induction ls with
  | nil => intro idx acc name t1 hOK ht j r2 t2 hj; simp at hj
  | cons l tail ih =>
    intro idx acc name t1 hOK ht j r2 t2 hj hm hn hne hnet
    rcases hstep : setterStep acc idx l with e | acc2
    · exact ⟨e, by simp [setterAux, hstep]⟩
    · cases j with
      | zero =>
        have hset := setterStep_sets acc idx l name r2 t2 (by simpa using hm) hn hne acc2 hstep
        have hpre := setterStep_preserves acc idx l name t1 hOK ht acc2 hstep
        rw [hpre] at hset
        exact absurd (Option.some.inj hset).symm hnet
      | succ j2 =>
        obtain ⟨e, he⟩ := ih (idx + 1) acc2 name t1
          (setterStep_typesOK acc idx l hOK acc2 hstep)
          (setterStep_preserves acc idx l name t1 hOK ht acc2 hstep)
          j2 r2 t2 (by simpa using hj) (by simpa using hm) hn hne hnet
        exact ⟨e, by simp [setterAux, hstep, he]⟩

theorem setterAux_two_conflict : ∀ (ls : List String) (idx : Nat) (acc : SetterAcc),
    typesBuiltinOK acc.types →
    ∀ (i j : Nat) (name : String) (r1 r2 : List Char) (t1 t2 : String),
    i < j → j < ls.length →
    matchSetter (ls.getD i "") = some (name, none, r1) →
    normVaryingType (extractType r1) = t1 → t1 ≠ "" →
    matchSetter (ls.getD j "") = some (name, none, r2) →
    normVaryingType (extractType r2) = t2 → t2 ≠ "" →
    t1 ≠ t2 → ∃ e, setterAux ls idx acc = .error e := by
  intro ls
  induction ls with
  | nil => intro idx acc hOK i j name r1 r2 t1 t2 hij hj; simp at hj
  | cons l tail ih =>
    intro idx acc hOK i j name r1 r2 t1 t2 hij hj hm1 hn1 hne1 hm2 hn2 hne2 h12
    rcases hstep : setterStep acc idx l with e | acc2
    · exact ⟨e, by simp [setterAux, hstep]⟩
    · cases j with
      | zero => omega
      | succ j2 =>
        cases i with
        | zero =>
          have h1 := setterStep_sets acc idx l name r1 t1 (by simpa using hm1) hn1 hne1 acc2 hstep
          obtain ⟨e, he⟩ := setterAux_conflict_after tail (idx + 1) acc2 name t1
            (setterStep_typesOK acc idx l hOK acc2 hstep) h1
            j2 r2 t2 (by simpa using hj) (by simpa using hm2) hn2 hne2 (Ne.symm h12)
          exact ⟨e, by simp [setterAux, hstep, he]⟩
        | succ i2 =>
          obtain ⟨e, he⟩ := ih (idx + 1) acc2
            (setterStep_typesOK acc idx l hOK acc2 hstep)
            i2 j2 name r1 r2 t1 t2 (by omega) (by simpa using hj)
            (by simpa using hm1) hn1 hne1 (by simpa using hm2) hn2 hne2 h12
          exact ⟨e, by simp [setterAux, hstep, he]⟩



theorem count_dedupAux (l : List String) :
    ∀ (seen : List String) (x : String),
    (dedupAux l seen).count x = if x ∈ seen then 0 else if x ∈ l then 1 else 0 := by
  induction l with
  | nil =>
    intro seen x
    simp [dedupAux]
  | cons y ys ih =>
    intro seen x
    by_cases hy : y ∈ seen
    · simp only [dedupAux]
      rw [if_pos hy, ih]
      by_cases hxs : x ∈ seen
      · simp [hxs]
      · have hxy : x ≠ y := fun h => hxs (h ▸ hy)
        simp [hxs, List.mem_cons, hxy]
    · simp only [dedupAux]
      rw [if_neg hy, List.count_cons, ih]
      by_cases hxy : x = y
      · subst hxy
        simp [hy, List.mem_cons]
      · have hyx : ¬y = x := fun h => hxy h.symm
        simp [List.mem_cons, hxy, hyx]

theorem insertSorted_perm (x : String) (l : List String) :
    (insertSorted x l).Perm (x :: l) := by
  induction l with
  | nil => exact List.Perm.refl _
  | cons y ys ih =>
    unfold insertSorted
    by_cases hle : x ≤ y
    · rw [if_pos hle]
    · rw [if_neg hle]
      exact ((ih.cons y).trans (List.Perm.swap x y ys))

theorem sortStrings_perm (l : List String) : (sortStrings l).Perm l := by
  induction l with
  | nil => exact List.Perm.refl _
  | cons x xs ih =>
    unfold sortStrings
    exact (insertSorted_perm x (sortStrings xs)).trans (ih.cons x)

theorem alGet_isSome_mem {β : Type} (m : List (String × β)) (k : String)
    (h : (alGet m k).isSome = true) : k ∈ m.map Prod.fst := by
  induction m with
  | nil => simp [alGet] at h
  | cons p rest ih =>
    obtain ⟨k1, v1⟩ := p
    by_cases h1 : k1 = k
    · subst h1
      simp
    · simp only [alGet, if_neg h1] at h
      simpa using Or.inr (ih h)

theorem structSlotNames_count (used : List (String × List Nat)) (name : String)
    (hu : (alGet used name).isSome = true)
    (hb : alGet builtinVaryings name = none) :
    (structSlotNames used).count name = 1 := by
  unfold structSlotNames dedupStrings
  rw [(sortStrings_perm _).count_eq, count_dedupAux]
  have hmem : name ∈ (used.map Prod.fst).filter
      (fun n => (alGet builtinVaryings n).isNone) := by
    rw [List.mem_filter]
    exact ⟨alGet_isSome_mem _ _ hu, by simp [hb]⟩
  have hnil : ¬name ∈ ([] : List String) := by simp
  rw [if_neg hnil, if_pos hmem]

theorem mkFieldLines_spec : ∀ (slots : List String) (types : List (String × String))
    (s : Nat) (fls : List String), mkFieldLines slots types s = .ok fls →
    fls.length = slots.length ∧
    ∀ k, k < slots.length → ∃ t, alGet types (slots.getD k "") = some t ∧
      fls.getD k "" = locLine (s + k) (slots.getD k "") t := by
  intro slots
  induction slots with
  | nil =>
    intro types s fls h
    cases h
    exact ⟨rfl, fun k hk => absurd hk (by simp)⟩
  | cons nm rest ih =>
    intro types s fls h
    unfold mkFieldLines at h
    rcases hl : alGet types nm with _ | t <;> simp only [hl] at h
    · cases h
    · rcases hrec : mkFieldLines rest types (s + 1) with e | ls <;> simp only [hrec] at h
      · cases h
      · cases h
        obtain ⟨hlen, hspec⟩ := ih types (s + 1) ls hrec
        refine ⟨by simp [hlen], fun k hk => ?_⟩
        cases k with
        | zero =>
          refine ⟨t, by simpa using hl, ?_⟩
          simp
        | succ k2 =>
          obtain ⟨t2, h1, h2⟩ := hspec k2 (by simpa using hk)
          refine ⟨t2, by simpa using h1, ?_⟩
          have harith : s + 1 + k2 = s + (k2 + 1) := by omega
          rw [← harith]
          simpa using h2



/-- C8 (amended): two assignments of the same varying with different explicit
types make resolution fail with a templating error, wherever they occur; an
assignment whose cast target is not a recognized varying type (a bare
literal) is likewise a fatal templating error; and a varying that is read
(hence in the used set) with an agreed type is emitted exactly once in the
synthesized Varyings struct, with that type — emission requires the name to
be read: an assigned-but-unread varying is commented out and omitted from
the struct (see the counterexample). -/
theorem claim_C8_varying_type_agreement :
    (∀ (lines : List String) (i j : Nat) (name : String) (r1 r2 : List Char)
        (t1 t2 : String),
      i < j → j < lines.length →
      matchSetter (lines.getD i "") = some (name, none, r1) →
      normVaryingType (extractType r1) = t1 → t1 ≠ "" →
      matchSetter (lines.getD j "") = some (name, none, r2) →
      normVaryingType (extractType r2) = t2 → t2 ≠ "" →
      t1 ≠ t2 →
      ∃ e, resolveVaryingsLines lines = .error e)
  ∧ (∀ (lines : List String) (i : Nat) (name : String) (rest : List Char),
      i < lines.length →
      matchSetter (lines.getD i "") = some (name, none, rest) →
      normVaryingType (extractType rest) = "" →
      ∃ e, resolveVaryingsLines lines = .error e)
  ∧ (∀ (used : List (String × List Nat)) (types : List (String × String))
        (name t : String) (sl : List String),
      (alGet used name).isSome = true → alGet builtinVaryings name = none →
      alGet types name = some t → mkStructLines used types = .ok sl →
      (structSlotNames used).count name = 1
      ∧ ∃ k, k < (structSlotNames used).length
          ∧ (structSlotNames used).getD k "" = name
          ∧ sl.getD (k + 1) "" = locLine k name t) := by
  refine ⟨fun lines i j name r1 r2 t1 t2 hij hj hm1 hn1 hne1 hm2 hn2 hne2 h12 => ?_,
    fun lines i name rest hi hm hty => ?_,
    fun used types name t sl hu hb ht hms => ?_⟩
  · obtain ⟨e, he⟩ := setterAux_two_conflict lines 0 ⟨[], [], []⟩ typesBuiltinOK_nil
      i j name r1 r2 t1 t2 hij hj hm1 hn1 hne1 hm2 hn2 hne2 h12
    exact ⟨e, by simp only [resolveVaryingsLines, setterPass, he]⟩
  · obtain ⟨e, he⟩ := setterAux_bare lines 0 ⟨[], [], []⟩ i name rest hi hm hty
    exact ⟨e, by simp only [resolveVaryingsLines, setterPass, he]⟩
  · have hcnt := structSlotNames_count used name hu hb
    unfold mkStructLines at hms
    rcases hf : mkFieldLines (structSlotNames used) types 0 with e | fls <;>
      simp only [hf] at hms
    · cases hms
    · rcases hbl : mkBuiltinLines (structBuiltinNames used) types with e | bls <;>
        simp only [hbl] at hms
      · cases hms
      · cases hms
        obtain ⟨hlen, hspec⟩ := mkFieldLines_spec _ types 0 fls hf
        have hmem : name ∈ structSlotNames used := by
          have hpos : 0 < (structSlotNames used).count name := by rw [hcnt]; omega
          exact List.count_pos_iff.mp hpos
        obtain ⟨k, hk, hkeq⟩ := List.getElem_of_mem hmem
        have hgd : (structSlotNames used).getD k "" = name := by
          rw [List.getD_eq_getElem _ _ hk]
          exact hkeq
        refine ⟨hcnt, k, hk, hgd, ?_⟩
        obtain ⟨t2, hlk, hline⟩ := hspec k hk
        rw [hgd] at hlk hline
        have ht2 : t2 = t := by
          have := ht.symm.trans hlk
          exact (Option.some.inj this).symm
        subst ht2
        have hkf : k < fls.length := by omega
        have h1 : ("struct Varyings \x7b" :: fls ++ bls ++ ["\x7d;\n"]).getD (k + 1) ""
            = (fls ++ bls ++ ["\x7d;\n"]).getD k "" := by
          simp
        rw [h1, List.getD_append _ _ _ _ (by rw [List.length_append]; omega),
          List.getD_append _ _ _ _ hkf, hline]
        simp

/-- C8 counterexample: `c8Lines` assigns `varyings.foo` twice with the same
explicit type `f32` and never reads it; resolution succeeds but the
synthesized struct contains no slot field at all — the name is emitted zero
times, not "exactly once" as claimed. -/
theorem claim_C8_counterexample :
    resolveVaryingsLines c8Lines = .ok c8Out
  ∧ matchSetter (c8Lines.getD 2 "") = some ("foo", none, " f32(1.0);".data)
  ∧ matchSetter (c8Lines.getD 3 "") = some ("foo", none, " f32(2.0);".data)
  ∧ normVaryingType (extractType (" f32(1.0);".data)) = "f32"
  ∧ normVaryingType (extractType (" f32(2.0);".data)) = "f32"
  ∧ (∀ l ∈ c8Out, strContains l "@location(" = false) := by
  decide

/-- C8 witness: a concrete type mismatch fails, a concrete bare literal
fails, and a read varying with agreed type `f32` appears exactly once in the
synthesized struct. -/
theorem claim_C8_witness :
    (∃ e, resolveVaryingsLines c8MismatchLines = .error e)
  ∧ (∃ e, resolveVaryingsLines c8BareLines = .error e)
  ∧ ((structSlotNames [("foo", [5])]).count "foo" = 1
      ∧ ∃ k, k < (structSlotNames [("foo", [5])]).length
          ∧ (structSlotNames [("foo", [5])]).getD k "" = "foo"
          ∧ (["struct Varyings \x7b", "    @location(0) foo : f32,", "\x7d;\n"]).getD (k + 1) ""
              = locLine k "foo" "f32") :=
  ⟨claim_C8_varying_type_agreement.1 c8MismatchLines 1 2 "foo"
      (" f32(1.0);".data) (" vec2<f32>(1.0, 2.0);".data) "f32" "vec2<f32>"
      (by omega) (by decide) (by decide) (by decide) (by decide)
      (by decide) (by decide) (by decide) (by decide),
   claim_C8_varying_type_agreement.2.1 c8BareLines 1 "foo" (" 3.0;".data)
      (by decide) (by decide) (by decide),
   claim_C8_varying_type_agreement.2.2 [("foo", [5])] [("foo", "f32")] "foo" "f32"
      ["struct Varyings \x7b", "    @location(0) foo : f32,", "\x7d;\n"]
      (by decide) (by decide) (by decide) (by decide)⟩

end Pygfx
